import Mathlib

/-!
Shallow embedding of the tmux terminal-output engine (`src/tty.c`) and proofs
about it.  C `u_int` fields are modelled as `Nat` with explicit wrapping
modulo 2^32 where the source can overflow; byte output is modelled as a trace
of emission events, each of which projects both to the bytes sent to the
terminal and to the bytes sent to the optional debug log.
-/

set_option maxRecDepth 16384
set_option maxHeartbeats 1000000

namespace TmuxTty

/-- 2^32, the modulus of the C `u_int` fields of `struct tty`. -/
def M32 : Nat := 4294967296

/-- `UINT_MAX`, the sentinel used by `tty.c` for unknown cursor/region state. -/
def U32MAX : Nat := 4294967295

/-- C unsigned subtraction `a - b` on `u_int` values (wraps modulo 2^32). -/
def u32sub (a b : Nat) : Nat := (a % M32 + (M32 - b % M32)) % M32

/-- Reinterpret a `u_int` value as a C `int` (two's complement), as happens in
`tty_cursor` when the unsigned difference is stored in `int change`. -/
def toInt32 (n : Nat) : Int :=
  if n % M32 < 2147483648 then ((n % M32 : Nat) : Int)
  else ((n % M32 : Nat) : Int) - (M32 : Int)

/-- Conversion of a C `int` to `u_int` (reduction modulo 2^32), as happens in
`tty_cursor` when `cy - change` mixes `u_int` and `int` operands. -/
def intToU32 (i : Int) : Nat := (i % (M32 : Int)).toNat

/-- C `a & ~b` on bit masks (the bits of `a &&& b` are a subset of the bits of
`a`, so plain subtraction clears exactly them). -/
def maskOut (a b : Nat) : Nat := a - (a &&& b)

/-! Attribute bits of `grid_cell.attr` (tmux.h, not under src/; the standard
tmux values are used — only distinctness matters to the engine). -/

def GRID_ATTR_BRIGHT : Nat := 1
def GRID_ATTR_DIM : Nat := 2
def GRID_ATTR_UNDERSCORE : Nat := 4
def GRID_ATTR_BLINK : Nat := 8
def GRID_ATTR_REVERSE : Nat := 16
def GRID_ATTR_HIDDEN : Nat := 32
def GRID_ATTR_ITALICS : Nat := 64
def GRID_ATTR_CHARSET : Nat := 128

/-! Flag bits of `grid_cell.flags` (tmux.h, not under src/). -/

def GRID_FLAG_PADDING : Nat := 4
def GRID_FLAG_SELECTED : Nat := 16

/-! Colour-space tags in `grid_cell.fg`/`bg` (tmux.h): `COLOUR_FLAG_256` marks
a palette index in the low 8 bits, `COLOUR_FLAG_RGB` a 24-bit colour in the
low 24 bits. -/

def COLOUR_FLAG_256 : Nat := 256
def COLOUR_FLAG_RGB : Nat := 16777216

/-! `tty_term` flag bits (tty-term.c / tmux.h, not under src/). -/

def TERM_256COLOURS : Nat := 1
def TERM_EARLYWRAP : Nat := 2

/-! `tty.flags` bits (tmux.h, not under src/). -/

def TTY_NOCURSOR : Nat := 1
def TTY_FREEZE : Nat := 2
def TTY_TIMER : Nat := 4
def TTY_UTF8 : Nat := 8
def TTY_OPENED : Nat := 16
def TTY_FOCUS : Nat := 32
def TTY_STARTED : Nat := 64

/-! `tty.mode` bits (tmux.h, not under src/). -/

def MODE_CURSOR : Nat := 1
def MODE_KKEYPAD : Nat := 8
def MODE_MOUSE_STANDARD : Nat := 32
def MODE_MOUSE_BUTTON : Nat := 64
def MODE_BLINKING : Nat := 128
def MODE_MOUSE_SGR : Nat := 512
def MODE_BRACKETPASTE : Nat := 1024
def ALL_MOUSE_MODES : Nat := MODE_MOUSE_STANDARD ||| MODE_MOUSE_BUTTON

/-- `window.flags` bit signalling that the style options changed (tmux.h). -/
def WINDOW_STYLECHANGED : Nat := 128

/-- The terminfo capability codes used by `tty.c` (`enum tty_code_code`). -/
inductive TtyCode where
  | ACSC | AX | BCE | BLINK | BOLD | CLEAR | CNORM | CIVIS | COLORS | CR | CS
  | CSR | CUB | CUB1 | CUD | CUD1 | CUF | CUF1 | CUP | CUU | CUU1 | CVVIS
  | DCH | DCH1 | DIM | DL | DL1 | ECH | ED | EL | EL1 | ENACS | FSL | HOME
  | HPA | ICH | ICH1 | IL | IL1 | INVIS | KMOUS | MS | OP | REV | RI | RMACS
  | RMCUP | RMKX | SE | SETAB | SETAF | SGR0 | SITM | SMACS | SMCUP | SMKX
  | SMSO | SMUL | SS | TC | TSL | VPA | XT
  deriving DecidableEq

/-- One event on the buffered output path.  `cap0`/`cap1`/`cap2`/`capS`/
`capSS` record calls of the `tty_putcode*` family (which in C pass the
terminfo expansion `tty_term_string*` to `tty_puts`); `lit` records `tty_puts`
of a literal string; `byte` records `tty_putc` (with the bytes actually sent,
after any ACS translation); `bytes` records `tty_putn`. -/
inductive Emission where
  | cap0 (c : TtyCode)
  | cap1 (c : TtyCode) (a : Nat)
  | cap2 (c : TtyCode) (a b : Nat)
  | capS (c : TtyCode) (s : List Nat)
  | capSS (c : TtyCode) (s1 s2 : List Nat)
  | lit (s : List Nat)
  | byte (orig : Nat) (sent : List Nat)
  | bytes (buf : List Nat)
  deriving DecidableEq

/-- ASCII bytes of a literal C string. -/
def strBytes (s : String) : List Nat := s.data.map (fun c => c.toNat)

/-- The capability table resolved for a terminal (`struct tty_term`,
tty-term.c, not under src/): capability presence, boolean flags, numbers,
the terminal-type flags, the ACS translation table (`tty_acs_get`) and the
terminfo parametric-string interpreter (`tty_term_string*`). -/
structure Term where
  has : TtyCode → Bool
  flag : TtyCode → Bool
  num : TtyCode → Nat
  flags : Nat
  acs : Nat → Option (List Nat)
  exp0 : TtyCode → List Nat
  exp1 : TtyCode → Nat → List Nat
  exp2 : TtyCode → Nat → Nat → List Nat
  expS : TtyCode → List Nat → List Nat
  expSS : TtyCode → List Nat → List Nat → List Nat

/-- `struct utf8_data`: the character data of a cell. -/
structure Utf8Data where
  size : Nat
  width : Nat
  data : List Nat
  deriving DecidableEq

/-- `struct grid_cell`. -/
structure GridCell where
  attr : Nat
  flags : Nat
  fg : Nat
  bg : Nat
  data : Utf8Data
  deriving DecidableEq

/-- `grid_default_cell` (grid.c): attributes clear, default colours, a single
space. -/
def grid_default_cell : GridCell :=
  { attr := 0, flags := 0, fg := 8, bg := 8
    data := { size := 1, width := 1, data := [32] } }

/-- `struct tty`: the shadow state.  `log_on` embeds the process-global
`tty_log_fd != -1` (whether the debug log is configured). -/
structure Tty where
  fd : Int
  client : Nat
  termname : String
  term : Term
  sx : Nat
  sy : Nat
  cx : Nat
  cy : Nat
  rupper : Nat
  rlower : Nat
  cell : GridCell
  mode : Nat
  ccolour : String
  cstyle : Nat
  flags : Nat
  term_flags : Nat
  log_on : Bool

/-- External collaborators of tty.c that live in other files of the
repository (colour.c, options.c), modelled as opaque-to-the-engine functions:
`find_rgb` is `colour_find_rgb` (nearest-colour-cube mapping), `c256to16` is
`colour_256to16` (the 256-to-16 palette-folding map), `default_terminal` is
`options_get_string(global_options, "default-terminal")`. -/
structure Ext where
  find_rgb : Nat → Nat → Nat → Nat
  c256to16 : Nat → Nat
  default_terminal : String

/-- Modelled from the spec: `colour_split_rgb` (colour.c, not under src/)
extracts the red byte of a 24-bit colour (the spec places the colour in the
low 24 bits, emitted as `ESC [ 38;2;R;G;B m`). -/
def splitR (c : Nat) : Nat := (c >>> 16) &&& 255

/-- Modelled from the spec: green byte of a 24-bit colour (see `splitR`). -/
def splitG (c : Nat) : Nat := (c >>> 8) &&& 255

/-- Modelled from the spec: blue byte of a 24-bit colour (see `splitR`). -/
def splitB (c : Nat) : Nat := c &&& 255

/-- Result of an operation on the buffered path: new shadow state plus the
trace of emissions. -/
abbrev TRes := Tty × List Emission

/-- `tty_use_acs` (tty.c macro): the ACSC capability is present and the tty
is not in UTF-8 mode. -/
def tty_use_acs (t : Tty) : Bool :=
  t.term.has TtyCode.ACSC && t.flags &&& TTY_UTF8 == 0

/-- `tty_puts`: append a string to the buffered output (and tee it to the
log, captured by the `lit` event).  An empty string is dropped. -/
def tty_puts (t : Tty) (s : List Nat) : TRes :=
  if s = [] then (t, []) else (t, [Emission.lit s])

/-- `tty_putcode`: `tty_puts(tty, tty_term_string(term, code))`; the event
records the capability, its byte expansion being `Term.exp0`. -/
def tty_putcode (t : Tty) (c : TtyCode) : TRes := (t, [Emission.cap0 c])

/-- `tty_putcode1` (the C `a < 0` guard is vacuous for the `u_int` arguments
passed by the engine). -/
def tty_putcode1 (t : Tty) (c : TtyCode) (a : Nat) : TRes := (t, [Emission.cap1 c a])

/-- `tty_putcode2`. -/
def tty_putcode2 (t : Tty) (c : TtyCode) (a b : Nat) : TRes := (t, [Emission.cap2 c a b])

/-- `tty_putcode_ptr1` (the C `a != NULL` guard is vacuous at its call
sites). -/
def tty_putcode_ptr1 (t : Tty) (c : TtyCode) (a : List Nat) : TRes := (t, [Emission.capS c a])

/-- `tty_putcode_ptr2`. -/
def tty_putcode_ptr2 (t : Tty) (c : TtyCode) (a b : List Nat) : TRes :=
  (t, [Emission.capSS c a b])

/-- `tty_putc`: write one byte, translating it through the ACS table when the
charset attribute is active (the `byte` event keeps both the original byte,
which is what goes to the log, and the bytes actually sent); a printable byte
advances the shadow column, wrapping to column 1 and advancing the row within
the scroll region at the right edge (one column earlier on early-wrap
terminals). -/
def tty_putc (t : Tty) (ch : Nat) : TRes :=
  let sent : List Nat :=
    if t.cell.attr &&& GRID_ATTR_CHARSET ≠ 0 then
      match t.term.acs ch with
      | some a => a
      | none => [ch]
    else [ch]
  let t1 : Tty :=
    if 32 ≤ ch ∧ ch ≠ 127 then
      let sx := if t.term.flags &&& TERM_EARLYWRAP ≠ 0 then u32sub t.sx 1 else t.sx
      if t.cx ≥ sx then
        { t with cx := 1, cy := if t.cy ≠ t.rlower then (t.cy + 1) % M32 else t.cy }
      else { t with cx := (t.cx + 1) % M32 }
    else t
  (t1, [Emission.byte ch sent])

/-- `tty_putn`: write a byte buffer and advance the shadow column by the
display width. -/
def tty_putn (t : Tty) (buf : List Nat) (width : Nat) : TRes :=
  ({ t with cx := (t.cx + width) % M32 }, [Emission.bytes buf])

/-- `tty_raw`: best-effort direct write used during teardown, bypassing the
buffer and the log.  The 5-retry loop over the external `write(2)` is
abstracted; the result pairs the bytes offered to the terminal with the bytes
written to the log (always none in this path). -/
def tty_raw (s : List Nat) : List Nat × List Nat := (s, [])

/-- Bytes an emission event sends to the terminal (capability events expand
through the terminfo interpreter). -/
def emissionTermBytes (tm : Term) : Emission → List Nat
  | Emission.cap0 c => tm.exp0 c
  | Emission.cap1 c a => tm.exp1 c a
  | Emission.cap2 c a b => tm.exp2 c a b
  | Emission.capS c s => tm.expS c s
  | Emission.capSS c s1 s2 => tm.expSS c s1 s2
  | Emission.lit s => s
  | Emission.byte _ sent => sent
  | Emission.bytes buf => buf

/-- Bytes an emission event writes to the debug log: identical to the
terminal bytes except for `tty_putc`, which logs the original byte rather
than its ACS translation. -/
def emissionLogBytes (tm : Term) : Emission → List Nat
  | Emission.cap0 c => tm.exp0 c
  | Emission.cap1 c a => tm.exp1 c a
  | Emission.cap2 c a b => tm.exp2 c a b
  | Emission.capS c s => tm.expS c s
  | Emission.capSS c s1 s2 => tm.expSS c s1 s2
  | Emission.lit s => s
  | Emission.byte orig _ => [orig]
  | Emission.bytes buf => buf

/-- Terminal bytes of a whole trace. -/
def traceTermBytes (tm : Term) (es : List Emission) : List Nat :=
  (es.map (emissionTermBytes tm)).flatten

/-- Log bytes of a whole trace, gated on the log being configured (each C
primitive checks `tty_log_fd != -1` before its `write`). -/
def traceLogBytes (t : Tty) (es : List Emission) : List Nat :=
  if t.log_on then (es.map (emissionLogBytes t.term)).flatten else []

/-- `struct screen` as read by the engine (screen.h, not under src/): size,
scroll region, cursor colour/style, and the grid accessors used by
`tty_draw_line` — `cellsize`/`lineWrapped` index `grid.linedata` absolutely
(history included), `cellAt` is `grid_view_get_cell`, `selCell` is the
external `screen_select_cell` mixing a cell with the selection style. -/
structure Screen where
  sizex : Nat
  sizey : Nat
  rupper : Nat
  rlower : Nat
  ccolour : String
  cstyle : Nat
  hsize : Nat
  cellsize : Nat → Nat
  lineWrapped : Nat → Bool
  cellAt : Nat → Nat → GridCell
  selCell : GridCell → GridCell

/-- The window fields read by `tty_default_colours` (tmux.h, not under src/):
the style-changed flag, the two style options as fetched from the options
store, and the cached copies. -/
structure Window where
  flags : Nat
  optActiveStyle : GridCell
  optStyle : GridCell
  active_style : GridCell
  style : GridCell

/-- The pane fields read by the engine (tmux.h, not under src/).  `isActive`
embeds the pointer comparison `wp == wp->window->active`. -/
structure Pane where
  window : Window
  isActive : Bool
  colgc : GridCell
  screen : Screen
  sx : Nat
  xoff : Nat
  yoff : Nat

/-- `struct tty_ctx`: the per-operation context handed to command handlers. -/
structure TtyCtx where
  wp : Pane
  ocx : Nat
  ocy : Nat
  orupper : Nat
  orlower : Nat
  xoff : Nat
  yoff : Nat
  num : Nat
  ptr : List Nat
  cell : GridCell
  last_cell : GridCell

/-- `grid_cells_equal` (grid.c, not under src/): field-by-field equality of
two cells, including the character data. -/
def grid_cells_equal (a b : GridCell) : Bool := a == b

/-- `tty_reset`: if the shadow cell differs from the default cell, leave ACS
mode if it was active, emit SGR0 and reset the shadow cell. -/
def tty_reset (t : Tty) : TRes :=
  if grid_cells_equal t.cell grid_default_cell then (t, [])
  else
    let e1 := if t.cell.attr &&& GRID_ATTR_CHARSET ≠ 0 ∧ tty_use_acs t then
        [Emission.cap0 TtyCode.RMACS]
      else []
    ({ t with cell := grid_default_cell }, e1 ++ [Emission.cap0 TtyCode.SGR0])

/-- `tty_force_cursor_colour`: emit CR (reset) for the empty colour or CS
with the colour string, and remember it. -/
def tty_force_cursor_colour (t : Tty) (c : String) : TRes :=
  let r := if c = "" then tty_putcode t TtyCode.CR
    else tty_putcode_ptr1 t TtyCode.CS (strBytes c)
  ({ r.1 with ccolour := c }, r.2)

/-- `tty_set_italics`: SITM when present and the default terminal is not a
`screen` variant, SMSO otherwise. -/
def tty_set_italics (ext : Ext) (t : Tty) : TRes :=
  if t.term.has TtyCode.SITM ∧ ext.default_terminal ≠ "screen" ∧
      ¬ ("screen-".isPrefixOf ext.default_terminal) then
    tty_putcode t TtyCode.SITM
  else tty_putcode t TtyCode.SMSO

/-- `tty_update_mode`: reconcile cursor visibility, blinking, cursor style,
mouse modes, keypad and bracketed paste with the shadow mode bits. -/
def tty_update_mode (t0 : Tty) (mode0 : Nat) (s : Option Screen) : TRes :=
  let a : TRes := match s with
    | some sc => if sc.ccolour ≠ t0.ccolour then tty_force_cursor_colour t0 sc.ccolour
      else (t0, [])
    | none => (t0, [])
  let t := a.1
  let mode := if t.flags &&& TTY_NOCURSOR ≠ 0 then maskOut mode0 MODE_CURSOR else mode0
  let changed0 := mode ^^^ t.mode
  let b : TRes := if changed0 &&& MODE_BLINKING ≠ 0 then
      (if t.term.has TtyCode.CVVIS then tty_putcode t TtyCode.CVVIS
       else tty_putcode t TtyCode.CNORM)
    else (t, [])
  let changed := if changed0 &&& MODE_BLINKING ≠ 0 then changed0 ||| MODE_CURSOR else changed0
  let c : TRes := if changed &&& MODE_CURSOR ≠ 0 then
      (if mode &&& MODE_CURSOR ≠ 0 then tty_putcode b.1 TtyCode.CNORM
       else tty_putcode b.1 TtyCode.CIVIS)
    else (b.1, [])
  let d : TRes := match s with
    | some sc =>
      if t.cstyle ≠ sc.cstyle then
        let e0 := if t.term.has TtyCode.SS then
            (if sc.cstyle = 0 ∧ t.term.has TtyCode.SE then tty_putcode c.1 TtyCode.SE
             else tty_putcode1 c.1 TtyCode.SS sc.cstyle)
          else (c.1, [])
        ({ e0.1 with cstyle := sc.cstyle }, e0.2)
      else (c.1, [])
    | none => (c.1, [])
  let e : TRes := if changed &&& ALL_MOUSE_MODES ≠ 0 then
      (if mode &&& ALL_MOUSE_MODES ≠ 0 then
        let m1 := tty_puts d.1 (strBytes "\x1b[?1006h")
        let m2 := if mode &&& MODE_MOUSE_BUTTON ≠ 0 then tty_puts m1.1 (strBytes "\x1b[?1002h")
          else if mode &&& MODE_MOUSE_STANDARD ≠ 0 then tty_puts m1.1 (strBytes "\x1b[?1000h")
          else (m1.1, [])
        (m2.1, m1.2 ++ m2.2)
      else
        let m1 := if t.mode &&& MODE_MOUSE_BUTTON ≠ 0 then tty_puts d.1 (strBytes "\x1b[?1002l")
          else if t.mode &&& MODE_MOUSE_STANDARD ≠ 0 then tty_puts d.1 (strBytes "\x1b[?1000l")
          else (d.1, [])
        let m2 := tty_puts m1.1 (strBytes "\x1b[?1006l")
        (m2.1, m1.2 ++ m2.2))
    else (d.1, [])
  let f : TRes := if changed &&& MODE_KKEYPAD ≠ 0 then
      (if mode &&& MODE_KKEYPAD ≠ 0 then tty_putcode e.1 TtyCode.SMKX
       else tty_putcode e.1 TtyCode.RMKX)
    else (e.1, [])
  let g : TRes := if changed &&& MODE_BRACKETPASTE ≠ 0 then
      (if mode &&& MODE_BRACKETPASTE ≠ 0 then tty_puts f.1 (strBytes "\x1b[?2004h")
       else tty_puts f.1 (strBytes "\x1b[?2004l"))
    else (f.1, [])
  ({ g.1 with mode := mode }, a.2 ++ b.2 ++ c.2 ++ d.2 ++ e.2 ++ f.2 ++ g.2)

/-- The same-row block of `tty_cursor` ("moving column only"): CR to the
left edge, CUB1/CUF1 for one-step moves, HPA when the change beats the
absolute column, CUB/CUF (two CUB1 when the change is exactly 2), falling
through to absolute CUP. -/
def tty_cursor_same_row (t : Tty) (cx cy : Nat) : TRes :=
  let thisx := t.cx
  if cx = 0 then tty_putc t 13
  else if cx = u32sub thisx 1 ∧ t.term.has TtyCode.CUB1 then tty_putcode t TtyCode.CUB1
  else if cx = (thisx + 1) % M32 ∧ t.term.has TtyCode.CUF1 then tty_putcode t TtyCode.CUF1
  else
    let change := toInt32 (u32sub thisx cx)
    if change.natAbs > cx ∧ t.term.has TtyCode.HPA then tty_putcode1 t TtyCode.HPA cx
    else if 0 < change ∧ t.term.has TtyCode.CUB then
      (if change = 2 ∧ t.term.has TtyCode.CUB1 then
         (t, [Emission.cap0 TtyCode.CUB1, Emission.cap0 TtyCode.CUB1])
       else tty_putcode1 t TtyCode.CUB change.natAbs)
    else if change < 0 ∧ t.term.has TtyCode.CUF then tty_putcode1 t TtyCode.CUF change.natAbs
    else tty_putcode2 t TtyCode.CUP cy cx

/-- The same-column block of `tty_cursor` ("moving row only"): CUU1/CUD1 for
one-step moves that stay inside the scroll region, VPA when the change beats
the absolute row or the move would cross the scroll region, CUU/CUD, falling
through to absolute CUP. -/
def tty_cursor_same_col (t : Tty) (cx cy : Nat) : TRes :=
  let thisy := t.cy
  if thisy ≠ t.rupper ∧ cy = u32sub thisy 1 ∧ t.term.has TtyCode.CUU1 then
    tty_putcode t TtyCode.CUU1
  else if thisy ≠ t.rlower ∧ cy = (thisy + 1) % M32 ∧ t.term.has TtyCode.CUD1 then
    tty_putcode t TtyCode.CUD1
  else
    let change := toInt32 (u32sub thisy cy)
    if change.natAbs > cy ∨ (change < 0 ∧ u32sub cy (intToU32 change) > t.rlower) ∨
        (0 < change ∧ u32sub cy (intToU32 change) < t.rupper) then
      (if t.term.has TtyCode.VPA then tty_putcode1 t TtyCode.VPA cy
       else tty_putcode2 t TtyCode.CUP cy cx)
    else if 0 < change ∧ t.term.has TtyCode.CUU then tty_putcode1 t TtyCode.CUU change.natAbs
    else if change < 0 ∧ t.term.has TtyCode.CUD then tty_putcode1 t TtyCode.CUD change.natAbs
    else tty_putcode2 t TtyCode.CUP cy cx

/-- The branch body of `tty_cursor` after the no-change check: choose the
cheapest movement.  `cx` is already clamped; the caller writes the new shadow
cursor afterwards (label `out` in the C). -/
def tty_cursor_emit (t : Tty) (cx cy : Nat) : TRes :=
  let thisx := t.cx
  let thisy := t.cy
  if thisx > u32sub t.sx 1 then tty_putcode2 t TtyCode.CUP cy cx
  else if cx = 0 ∧ cy = 0 ∧ t.term.has TtyCode.HOME then tty_putcode t TtyCode.HOME
  else if cx = 0 ∧ cy = (thisy + 1) % M32 ∧ thisy ≠ t.rlower then
    let r1 := tty_putc t 13
    let r2 := tty_putc r1.1 10
    (r2.1, r1.2 ++ r2.2)
  else if cy = thisy then tty_cursor_same_row t cx cy
  else if cx = thisx then tty_cursor_same_col t cx cy
  else tty_putcode2 t TtyCode.CUP cy cx

/-- `tty_cursor`: clamp the target column to the screen, return if the shadow
cursor already matches, otherwise emit the cheapest movement and update the
shadow cursor. -/
def tty_cursor (t : Tty) (cx0 cy0 : Nat) : TRes :=
  let cx := if cx0 > u32sub t.sx 1 then u32sub t.sx 1 else cx0
  let cy := cy0
  if cx = t.cx ∧ cy = t.cy then (t, [])
  else
    let r := tty_cursor_emit t cx cy
    ({ r.1 with cx := cx, cy := cy }, r.2)

/-- `tty_cursor_pane`: cursor movement relative to a pane's offset. -/
def tty_cursor_pane (t : Tty) (ctx : TtyCtx) (cx cy : Nat) : TRes :=
  tty_cursor t ((ctx.xoff + cx) % M32) ((ctx.yoff + cy) % M32)

/-- `tty_region`: program the scroll region via CSR when it differs from the
shadow; a pending-wrap cursor is first moved to column 0, and the cursor is
re-homed afterwards since CSR reparks it. -/
def tty_region (t : Tty) (rupper rlower : Nat) : TRes :=
  if t.rlower = rlower ∧ t.rupper = rupper then (t, [])
  else if ¬ t.term.has TtyCode.CSR then (t, [])
  else
    let t1 := { t with rupper := rupper, rlower := rlower }
    let a := if t1.cx ≥ t1.sx then tty_cursor t1 0 t1.cy else (t1, [])
    let b := tty_putcode2 a.1 TtyCode.CSR t1.rupper t1.rlower
    let c := tty_cursor b.1 0 0
    (c.1, a.2 ++ b.2 ++ c.2)

/-- `tty_region_pane`: scroll region relative to a pane's offset. -/
def tty_region_pane (t : Tty) (ctx : TtyCtx) (rupper rlower : Nat) : TRes :=
  tty_region t ((ctx.yoff + rupper) % M32) ((ctx.yoff + rlower) % M32)

/-- `tty_default_colours`: substitute a default (8) fg/bg from the pane's
`colgc`, else from `window-active-style` for the active pane, else from
`window-style`.  On `WINDOW_STYLECHANGED` the styles are re-fetched from the
options store (the C also refreshes the window's caches, a write to the
external window structure that does not affect the resulting cell). -/
def tty_default_colours (gc : GridCell) (wp : Pane) : GridCell :=
  let w := wp.window
  let agc := if w.flags &&& WINDOW_STYLECHANGED ≠ 0 then w.optActiveStyle else w.active_style
  let wgc := if w.flags &&& WINDOW_STYLECHANGED ≠ 0 then w.optStyle else w.style
  let pgc := wp.colgc
  let gc1 := if gc.fg = 8 then
      { gc with fg :=
        if pgc.fg ≠ 8 then pgc.fg
        else if wp.isActive ∧ agc.fg ≠ 8 then agc.fg
        else wgc.fg }
    else gc
  if gc1.bg = 8 then
    { gc1 with bg :=
      if pgc.bg ≠ 8 then pgc.bg
      else if wp.isActive ∧ agc.bg ≠ 8 then agc.bg
      else wgc.bg }
  else gc1

/-- `tty_fake_bce`: BCE is needed (the effective default background of the
pane is not colour 8) but the terminal does not declare it. -/
def tty_fake_bce (t : Tty) (wp : Option Pane) : Bool :=
  let gc := match wp with
    | some p => tty_default_colours grid_default_cell p
    | none => grid_default_cell
  if gc.bg = 8 then false else ! t.term.flag TtyCode.BCE

/-- `tty_check_fg`: downgrade the foreground to what the terminal supports —
RGB to the 256 palette when the TC flag is absent, 256 to 16 via the palette
map when no 256-colour mode is signalled (folding 8–15 to aixterm 9x or to
0–7 plus BRIGHT), and aixterm 90–97 to 0–7 plus BRIGHT on terminals with
fewer than 16 colours. -/
def tty_check_fg (ext : Ext) (t : Tty) (gc0 : GridCell) : GridCell :=
  if gc0.fg &&& COLOUR_FLAG_RGB ≠ 0 ∧ t.term.flag TtyCode.TC then gc0
  else
    let gc := if gc0.fg &&& COLOUR_FLAG_RGB ≠ 0 then
        { gc0 with fg := ext.find_rgb (splitR gc0.fg) (splitG gc0.fg) (splitB gc0.fg) }
      else gc0
    let colours := t.term.num TtyCode.COLORS
    if gc.fg &&& COLOUR_FLAG_256 ≠ 0 then
      if t.term.flags &&& TERM_256COLOURS = 0 ∧ t.term_flags &&& TERM_256COLOURS = 0 then
        let fg1 := ext.c256to16 gc.fg
        if fg1 &&& 8 ≠ 0 then
          (if 16 ≤ colours then { gc with fg := (fg1 &&& 7) + 90 }
           else { gc with fg := fg1 &&& 7, attr := gc.attr ||| GRID_ATTR_BRIGHT })
        else { gc with fg := fg1, attr := maskOut gc.attr GRID_ATTR_BRIGHT }
      else gc
    else if 90 ≤ gc.fg ∧ gc.fg ≤ 97 ∧ colours < 16 then
      { gc with fg := gc.fg - 90, attr := gc.attr ||| GRID_ATTR_BRIGHT }
    else gc

/-- `tty_check_bg`: the background counterpart of `tty_check_fg`.  In the
256-to-16 branch the source adds the aixterm offset to `gc->fg` (not
`gc->bg`) when the folded colour has the bright bit and the terminal has at
least 16 colours; this transcription keeps that behaviour. -/
def tty_check_bg (ext : Ext) (t : Tty) (gc0 : GridCell) : GridCell :=
  if gc0.bg &&& COLOUR_FLAG_RGB ≠ 0 ∧ t.term.flag TtyCode.TC then gc0
  else
    let gc := if gc0.bg &&& COLOUR_FLAG_RGB ≠ 0 then
        { gc0 with bg := ext.find_rgb (splitR gc0.bg) (splitG gc0.bg) (splitB gc0.bg) }
      else gc0
    let colours := t.term.num TtyCode.COLORS
    if gc.bg &&& COLOUR_FLAG_256 ≠ 0 then
      if t.term.flags &&& TERM_256COLOURS = 0 ∧ t.term_flags &&& TERM_256COLOURS = 0 then
        let bg1 := ext.c256to16 gc.bg
        if bg1 &&& 8 ≠ 0 then
          (if 16 ≤ colours then { gc with bg := bg1 &&& 7, fg := gc.fg + 90 }
           else { gc with bg := bg1 &&& 7 })
        else { gc with bg := bg1 }
      else gc
    else if 90 ≤ gc.bg ∧ gc.bg ≤ 97 ∧ colours < 16 then { gc with bg := gc.bg - 90 }
    else gc

/-- `tty_try_colour`: emit a 256-palette or RGB colour change for plane `ty`
("38" foreground, "48" background), returning 0 on success and -1 when the
colour is not of either kind or RGB is unsupported. -/
def tty_try_colour (t : Tty) (colour : Nat) (ty : String) : Tty × List Emission × Int :=
  if colour &&& COLOUR_FLAG_256 ≠ 0 then
    let fallback : Tty × List Emission × Int :=
      (t, [Emission.lit (strBytes ("\x1b[" ++ ty ++ ";5;" ++ toString (colour &&& 255) ++ "m"))], 0)
    if t.term_flags &&& TERM_256COLOURS ≠ 0 then fallback
    else if t.term.flags &&& TERM_256COLOURS ≠ 0 then
      (if ty.front = '3' then
         (if t.term.has TtyCode.SETAF then (t, [Emission.cap1 TtyCode.SETAF (colour &&& 255)], 0)
          else fallback)
       else
         (if t.term.has TtyCode.SETAB then (t, [Emission.cap1 TtyCode.SETAB (colour &&& 255)], 0)
          else fallback))
    else fallback
  else if colour &&& COLOUR_FLAG_RGB ≠ 0 then
    if ¬ t.term.flag TtyCode.TC then (t, [], -1)
    else
      (t, [Emission.lit (strBytes ("\x1b[" ++ ty ++ ";2;" ++
        toString (splitR (colour &&& 16777215)) ++ ";" ++
        toString (splitG (colour &&& 16777215)) ++ ";" ++
        toString (splitB (colour &&& 16777215)) ++ "m"))], 0)
  else (t, [], -1)

/-- `tty_colours_fg`: emit the foreground colour and save it in the shadow
cell (256/RGB through `tty_try_colour`, aixterm as a literal sequence,
classic through SETAF). -/
def tty_colours_fg (t : Tty) (gc : GridCell) : TRes :=
  if gc.fg &&& COLOUR_FLAG_RGB ≠ 0 ∨ gc.fg &&& COLOUR_FLAG_256 ≠ 0 then
    let r := tty_try_colour t gc.fg "38"
    if r.2.2 = 0 then ({ r.1 with cell := { r.1.cell with fg := gc.fg } }, r.2.1)
    else (r.1, r.2.1)
  else if 90 ≤ gc.fg ∧ gc.fg ≤ 97 then
    ({ t with cell := { t.cell with fg := gc.fg } },
     [Emission.lit (strBytes ("\x1b[" ++ toString gc.fg ++ "m"))])
  else
    ({ t with cell := { t.cell with fg := gc.fg } }, [Emission.cap1 TtyCode.SETAF gc.fg])

/-- `tty_colours_bg`: the background counterpart of `tty_colours_fg`
(aixterm backgrounds add 10, classic goes through SETAB). -/
def tty_colours_bg (t : Tty) (gc : GridCell) : TRes :=
  if gc.bg &&& COLOUR_FLAG_RGB ≠ 0 ∨ gc.bg &&& COLOUR_FLAG_256 ≠ 0 then
    let r := tty_try_colour t gc.bg "48"
    if r.2.2 = 0 then ({ r.1 with cell := { r.1.cell with bg := gc.bg } }, r.2.1)
    else (r.1, r.2.1)
  else if 90 ≤ gc.bg ∧ gc.bg ≤ 97 then
    ({ t with cell := { t.cell with bg := gc.bg } },
     [Emission.lit (strBytes ("\x1b[" ++ toString (gc.bg + 10) ++ "m"))])
  else
    ({ t with cell := { t.cell with bg := gc.bg } }, [Emission.cap1 TtyCode.SETAB gc.bg])

/-- `tty_colours`: reconcile fg and bg with the shadow cell, handling the
default colour specially (AX, or OP via a full reset). -/
def tty_colours (t0 : Tty) (gc : GridCell) : TRes :=
  if gc.fg = t0.cell.fg ∧ gc.bg = t0.cell.bg then (t0, [])
  else
    let a : TRes :=
      if gc.fg = 8 ∨ gc.bg = 8 then
        let have_ax := t0.term.flag TtyCode.AX
        if ¬ have_ax ∧ t0.term.has TtyCode.OP then tty_reset t0
        else
          let r1 : TRes := if gc.fg = 8 ∧ t0.cell.fg ≠ 8 then
              (let e := if have_ax then tty_puts t0 (strBytes "\x1b[39m")
                 else if t0.cell.fg ≠ 7 then tty_putcode1 t0 TtyCode.SETAF 7
                 else (t0, [])
               ({ e.1 with cell := { e.1.cell with fg := 8 } }, e.2))
            else (t0, [])
          let r2 : TRes := if gc.bg = 8 ∧ r1.1.cell.bg ≠ 8 then
              (let e := if have_ax then tty_puts r1.1 (strBytes "\x1b[49m")
                 else if r1.1.cell.bg ≠ 0 then tty_putcode1 r1.1 TtyCode.SETAB 0
                 else (r1.1, [])
               ({ e.1 with cell := { e.1.cell with bg := 8 } }, e.2))
            else (r1.1, [])
          (r2.1, r1.2 ++ r2.2)
      else (t0, [])
    let b : TRes := if gc.fg ≠ 8 ∧ gc.fg ≠ a.1.cell.fg then tty_colours_fg a.1 gc else (a.1, [])
    let c : TRes := if gc.bg ≠ 8 ∧ gc.bg ≠ b.1.cell.bg then tty_colours_bg b.1 gc else (b.1, [])
    (c.1, a.2 ++ b.2 ++ c.2)

/-- `tty_attributes`: compute the effective desired cell (default-colour
resolution, reverse-for-background fallback, colour downgrade), reset if any
attribute bit must be cleared, emit colours, then newly set attribute
bits. -/
def tty_attributes (ext : Ext) (t0 : Tty) (gc : GridCell) (wp : Option Pane) : TRes :=
  let gc2a := match wp with
    | some p => tty_default_colours gc p
    | none => gc
  let gc2b := if ¬ t0.term.has TtyCode.SETAB then
      (if gc2a.attr &&& GRID_ATTR_REVERSE ≠ 0 then
         (if gc2a.fg ≠ 7 ∧ gc2a.fg ≠ 8 then
            { gc2a with attr := maskOut gc2a.attr GRID_ATTR_REVERSE }
          else gc2a)
       else
         (if gc2a.bg ≠ 0 ∧ gc2a.bg ≠ 8 then
            { gc2a with attr := gc2a.attr ||| GRID_ATTR_REVERSE }
          else gc2a))
    else gc2a
  let gc2 := tty_check_bg ext t0 (tty_check_fg ext t0 gc2b)
  let a : TRes := if maskOut t0.cell.attr gc2.attr ≠ 0 then tty_reset t0 else (t0, [])
  let b : TRes := tty_colours a.1 gc2
  let changed := maskOut gc2.attr b.1.cell.attr
  let t2 := { b.1 with cell := { b.1.cell with attr := gc2.attr } }
  let e1 := if changed &&& GRID_ATTR_BRIGHT ≠ 0 then [Emission.cap0 TtyCode.BOLD] else []
  let e2 := if changed &&& GRID_ATTR_DIM ≠ 0 then [Emission.cap0 TtyCode.DIM] else []
  let e3 := if changed &&& GRID_ATTR_ITALICS ≠ 0 then (tty_set_italics ext t2).2 else []
  let e4 := if changed &&& GRID_ATTR_UNDERSCORE ≠ 0 then [Emission.cap0 TtyCode.SMUL] else []
  let e5 := if changed &&& GRID_ATTR_BLINK ≠ 0 then [Emission.cap0 TtyCode.BLINK] else []
  let e6 := if changed &&& GRID_ATTR_REVERSE ≠ 0 then
      (if t2.term.has TtyCode.REV then [Emission.cap0 TtyCode.REV]
       else if t2.term.has TtyCode.SMSO then [Emission.cap0 TtyCode.SMSO] else [])
    else []
  let e7 := if changed &&& GRID_ATTR_HIDDEN ≠ 0 then [Emission.cap0 TtyCode.INVIS] else []
  let e8 := if changed &&& GRID_ATTR_CHARSET ≠ 0 ∧ tty_use_acs t2 then
      [Emission.cap0 TtyCode.SMACS]
    else []
  (t2, a.2 ++ b.2 ++ e1 ++ e2 ++ e3 ++ e4 ++ e5 ++ e6 ++ e7 ++ e8)

/-- Emitting the same byte `n` times through `tty_putc` (the loop bodies of
`tty_repeat_space` and of the non-UTF-8 placeholder loop in `tty_cell`). -/
def tty_putc_times : Tty → Nat → Nat → TRes
  | t, _, 0 => (t, [])
  | t, ch, n + 1 =>
    let a := tty_putc t ch
    let b := tty_putc_times a.1 ch n
    (b.1, a.2 ++ b.2)

/-- `tty_repeat_space`: n spaces through `tty_putc`. -/
def tty_repeat_space (t : Tty) (n : Nat) : TRes := tty_putc_times t 32 n

/-- `tty_emulate_repeat`: the parameterised capability once, or the single
capability n times. -/
def tty_emulate_repeat (t : Tty) (code code1 : TtyCode) (n : Nat) : TRes :=
  if t.term.has code then tty_putcode1 t code n
  else (t, List.replicate n (Emission.cap0 code1))

/-- `tty_cell`: write one styled cell — skip the last position on early-wrap
terminals and padding cells entirely, set attributes, then write the data
(single printable byte through `tty_putc`, `_` placeholders without UTF-8,
raw bytes otherwise). -/
def tty_cell (ext : Ext) (t : Tty) (gc : GridCell) (wp : Option Pane) : TRes :=
  if t.term.flags &&& TERM_EARLYWRAP ≠ 0 ∧ t.cy = u32sub t.sy 1 ∧ t.cx = u32sub t.sx 1 then
    (t, [])
  else if gc.flags &&& GRID_FLAG_PADDING ≠ 0 then (t, [])
  else
    let a := tty_attributes ext t gc wp
    if gc.data.size = 1 then
      (let b := gc.data.data.headD 0
       if b < 32 ∨ b = 127 then (a.1, a.2)
       else
         let c := tty_putc a.1 b
         (c.1, a.2 ++ c.2))
    else if a.1.flags &&& TTY_UTF8 = 0 then
      let c := tty_putc_times a.1 95 gc.data.width
      (c.1, a.2 ++ c.2)
    else
      let c := tty_putn a.1 (gc.data.data.take gc.data.size) gc.data.width
      (c.1, a.2 ++ c.2)

/-- `tty_pane_full_width` (tty.c macro): no horizontal offset and the pane's
screen at least as wide as the terminal. -/
def tty_pane_full_width (t : Tty) (ctx : TtyCtx) : Bool :=
  ctx.xoff == 0 && t.sx ≤ ctx.wp.screen.sizex

/-- `tty_large_region`: the affected region spans at least half the pane. -/
def tty_large_region (ctx : TtyCtx) : Bool :=
  ctx.wp.screen.sizey / 2 ≤ u32sub ctx.orlower ctx.orupper

/-- The per-column body of `tty_draw_line`: fetch the cell, mix in the
selection style when selected, and emit it. -/
def tty_draw_line_loop (ext : Ext) (wp : Option Pane) (s : Screen) (py : Nat) :
    Tty → List Nat → TRes
  | t, [] => (t, [])
  | t, i :: rest =>
    let gc0 := s.cellAt i py
    let gc := if gc0.flags &&& GRID_FLAG_SELECTED ≠ 0 then s.selCell gc0 else gc0
    let a := tty_cell ext t gc wp
    let b := tty_draw_line_loop ext wp s py a.1 rest
    (b.1, a.2 ++ b.2)

/-- The tail fill of `tty_draw_line`: when the effective width stops short
of the terminal, reset attributes, park the cursor after the drawn cells and
clear with EL only when the pane reaches the right edge and BCE is real,
otherwise space-paint. -/
def tty_draw_line_tail (ext : Ext) (wp : Option Pane) (s : Screen)
    (sx py ox oy : Nat) (t : Tty) : TRes :=
  if sx < t.sx then
    let d1 := tty_attributes ext t grid_default_cell wp
    let d2 := tty_cursor d1.1 ((ox + sx) % M32) ((oy + py) % M32)
    let d3 := if sx ≠ s.sizex ∧ (ox + s.sizex) % M32 ≥ d2.1.sx ∧
        d2.1.term.has TtyCode.EL ∧ ¬ tty_fake_bce d2.1 wp then
        tty_putcode d2.1 TtyCode.EL
      else tty_repeat_space d2.1 (u32sub s.sizex sx)
    (d3.1, d1.2 ++ d2.2 ++ d3.2)
  else (t, [])

/-- `tty_draw_line`: freeze the cursor, position it unless the previous line
wrapped onto the target, emit every cell up to the effective width, fill the
tail with EL (only under real BCE) or spaces, and restore cursor
visibility. -/
def tty_draw_line (ext : Ext) (t0 : Tty) (wp : Option Pane) (s : Screen)
    (py ox oy : Nat) : TRes :=
  let flags := t0.flags &&& TTY_NOCURSOR
  let t1 := { t0 with flags := t0.flags ||| TTY_NOCURSOR }
  let a := tty_update_mode t1 t1.mode (some s)
  let t2 := a.1
  let sx1 := s.sizex
  let sx2 := if sx1 > s.cellsize (s.hsize + py) then s.cellsize (s.hsize + py) else sx1
  let sx := if sx2 > t2.sx then t2.sx else sx2
  let b := if (oy + py) % M32 = 0 ∨ py = 0 ∨ ¬ s.lineWrapped (s.hsize + py - 1) ∨
      t2.cx < t2.sx ∨ ox ≠ 0 ∨
      ((oy + py) % M32 ≠ (t2.cy + 1) % M32 ∧ t2.cy ≠ (s.rlower + oy) % M32) then
      tty_cursor t2 ox ((oy + py) % M32)
    else (t2, [])
  let c := tty_draw_line_loop ext wp s py b.1 (List.range sx)
  let d := tty_draw_line_tail ext wp s sx py ox oy c.1
  let t3 := { d.1 with flags := maskOut d.1.flags TTY_NOCURSOR ||| flags }
  let e := tty_update_mode t3 t3.mode (some s)
  (e.1, a.2 ++ b.2 ++ c.2 ++ d.2 ++ e.2)

/-- `tty_draw_pane`: draw one line of a pane's screen. -/
def tty_draw_pane (ext : Ext) (t : Tty) (wp : Pane) (py ox oy : Nat) : TRes :=
  tty_draw_line ext t (some wp) wp.screen py ox oy

/-- Drawing a list of pane rows in order (the loop bodies of
`tty_redraw_region`). -/
def tty_draw_pane_rows (ext : Ext) (wp : Pane) (ox oy : Nat) : Tty → List Nat → TRes
  | t, [] => (t, [])
  | t, i :: rest =>
    let a := tty_draw_pane ext t wp i ox oy
    let b := tty_draw_pane_rows ext wp ox oy a.1 rest
    (b.1, a.2 ++ b.2)

/-- `tty_redraw_region`: schedule a full redraw for a large region (a write
to the external pane's flags, no output), else redraw the affected rows. -/
def tty_redraw_region (ext : Ext) (t : Tty) (ctx : TtyCtx) : TRes :=
  if tty_large_region ctx then (t, [])
  else if ctx.ocy < ctx.orupper ∨ ctx.ocy > ctx.orlower then
    tty_draw_pane_rows ext ctx.wp ctx.xoff ctx.yoff t
      (List.range' ctx.ocy (ctx.wp.screen.sizey - ctx.ocy))
  else
    tty_draw_pane_rows ext ctx.wp ctx.xoff ctx.yoff t
      (List.range' ctx.orupper (ctx.orlower + 1 - ctx.orupper))

/-- `tty_cmd_insertcharacter`: ICH/ICH1 for a full-width pane without
fake-BCE, otherwise redraw the line. -/
def tty_cmd_insertcharacter (ext : Ext) (t : Tty) (ctx : TtyCtx) : TRes :=
  if ¬ tty_pane_full_width t ctx then tty_draw_pane ext t ctx.wp ctx.ocy ctx.xoff ctx.yoff
  else
    let a := tty_attributes ext t grid_default_cell (some ctx.wp)
    let b := tty_cursor_pane a.1 ctx ctx.ocx ctx.ocy
    let c := if ¬ tty_fake_bce b.1 (some ctx.wp) ∧
        (b.1.term.has TtyCode.ICH ∨ b.1.term.has TtyCode.ICH1) then
        tty_emulate_repeat b.1 TtyCode.ICH TtyCode.ICH1 ctx.num
      else tty_draw_pane ext b.1 ctx.wp ctx.ocy ctx.xoff ctx.yoff
    (c.1, a.2 ++ b.2 ++ c.2)

/-- `tty_cmd_deletecharacter`: DCH/DCH1 under the same conditions, otherwise
redraw the line. -/
def tty_cmd_deletecharacter (ext : Ext) (t : Tty) (ctx : TtyCtx) : TRes :=
  if ¬ tty_pane_full_width t ctx ∨ tty_fake_bce t (some ctx.wp) ∨
      (¬ t.term.has TtyCode.DCH ∧ ¬ t.term.has TtyCode.DCH1) then
    tty_draw_pane ext t ctx.wp ctx.ocy ctx.xoff ctx.yoff
  else
    let a := tty_attributes ext t grid_default_cell (some ctx.wp)
    let b := tty_cursor_pane a.1 ctx ctx.ocx ctx.ocy
    let c := if b.1.term.has TtyCode.DCH ∨ b.1.term.has TtyCode.DCH1 then
        tty_emulate_repeat b.1 TtyCode.DCH TtyCode.DCH1 ctx.num
      else (b.1, [])
    (c.1, a.2 ++ b.2 ++ c.2)

/-- `tty_cmd_clearcharacter`: ECH without fake-BCE, otherwise spaces. -/
def tty_cmd_clearcharacter (ext : Ext) (t : Tty) (ctx : TtyCtx) : TRes :=
  let a := tty_attributes ext t grid_default_cell (some ctx.wp)
  let b := tty_cursor_pane a.1 ctx ctx.ocx ctx.ocy
  let c := if b.1.term.has TtyCode.ECH ∧ ¬ tty_fake_bce b.1 (some ctx.wp) then
      tty_putcode1 b.1 TtyCode.ECH ctx.num
    else tty_putc_times b.1 32 ctx.num
  (c.1, a.2 ++ b.2 ++ c.2)

/-- `tty_cmd_insertline`: IL/IL1 inside the scroll region for a full-width
pane without fake-BCE, otherwise redraw the region. -/
def tty_cmd_insertline (ext : Ext) (t : Tty) (ctx : TtyCtx) : TRes :=
  if ¬ tty_pane_full_width t ctx ∨ tty_fake_bce t (some ctx.wp) ∨
      ¬ t.term.has TtyCode.CSR ∨ ¬ t.term.has TtyCode.IL1 then
    tty_redraw_region ext t ctx
  else
    let a := tty_attributes ext t grid_default_cell (some ctx.wp)
    let b := tty_region_pane a.1 ctx ctx.orupper ctx.orlower
    let c := tty_cursor_pane b.1 ctx ctx.ocx ctx.ocy
    let d := tty_emulate_repeat c.1 TtyCode.IL TtyCode.IL1 ctx.num
    (d.1, a.2 ++ b.2 ++ c.2 ++ d.2)

/-- `tty_cmd_deleteline`: DL/DL1 under the same conditions, otherwise redraw
the region. -/
def tty_cmd_deleteline (ext : Ext) (t : Tty) (ctx : TtyCtx) : TRes :=
  if ¬ tty_pane_full_width t ctx ∨ tty_fake_bce t (some ctx.wp) ∨
      ¬ t.term.has TtyCode.CSR ∨ ¬ t.term.has TtyCode.DL1 then
    tty_redraw_region ext t ctx
  else
    let a := tty_attributes ext t grid_default_cell (some ctx.wp)
    let b := tty_region_pane a.1 ctx ctx.orupper ctx.orlower
    let c := tty_cursor_pane b.1 ctx ctx.ocx ctx.ocy
    let d := tty_emulate_repeat c.1 TtyCode.DL TtyCode.DL1 ctx.num
    (d.1, a.2 ++ b.2 ++ c.2 ++ d.2)

/-- `tty_cmd_clearline`: EL for a full-width pane without fake-BCE, otherwise
space-paint the full row. -/
def tty_cmd_clearline (ext : Ext) (t : Tty) (ctx : TtyCtx) : TRes :=
  let a := tty_attributes ext t grid_default_cell (some ctx.wp)
  let b := tty_cursor_pane a.1 ctx 0 ctx.ocy
  let c := if tty_pane_full_width b.1 ctx ∧ ¬ tty_fake_bce b.1 (some ctx.wp) ∧
      b.1.term.has TtyCode.EL then tty_putcode b.1 TtyCode.EL
    else tty_repeat_space b.1 ctx.wp.screen.sizex
  (c.1, a.2 ++ b.2 ++ c.2)

/-- `tty_cmd_clearendofline`: EL under the same conditions, otherwise
space-paint to the right edge. -/
def tty_cmd_clearendofline (ext : Ext) (t : Tty) (ctx : TtyCtx) : TRes :=
  let a := tty_attributes ext t grid_default_cell (some ctx.wp)
  let b := tty_cursor_pane a.1 ctx ctx.ocx ctx.ocy
  let c := if tty_pane_full_width b.1 ctx ∧ b.1.term.has TtyCode.EL ∧
      ¬ tty_fake_bce b.1 (some ctx.wp) then tty_putcode b.1 TtyCode.EL
    else tty_repeat_space b.1 (u32sub ctx.wp.screen.sizex ctx.ocx)
  (c.1, a.2 ++ b.2 ++ c.2)

/-- `tty_cmd_clearstartofline`: EL1 when the pane starts at column 0 without
fake-BCE, otherwise space-paint from column 0. -/
def tty_cmd_clearstartofline (ext : Ext) (t : Tty) (ctx : TtyCtx) : TRes :=
  let a := tty_attributes ext t grid_default_cell (some ctx.wp)
  if ctx.xoff = 0 ∧ a.1.term.has TtyCode.EL1 ∧ ¬ tty_fake_bce a.1 (some ctx.wp) then
    let b := tty_cursor_pane a.1 ctx ctx.ocx ctx.ocy
    let c := tty_putcode b.1 TtyCode.EL1
    (c.1, a.2 ++ b.2 ++ c.2)
  else
    let b := tty_cursor_pane a.1 ctx 0 ctx.ocy
    let c := tty_repeat_space b.1 ((ctx.ocx + 1) % M32)
    (c.1, a.2 ++ b.2 ++ c.2)

/-- `tty_cmd_linefeed`: nothing unless the cursor sits on the region bottom;
redraw when a native scroll is impossible; nothing when the line wrapped
naturally on a terminal that is not early-wrap; otherwise a literal newline
inside the programmed region. -/
def tty_cmd_linefeed (ext : Ext) (t : Tty) (ctx : TtyCtx) : TRes :=
  if ctx.ocy ≠ ctx.orlower then (t, [])
  else if ¬ tty_pane_full_width t ctx ∨ tty_fake_bce t (some ctx.wp) ∨
      ¬ t.term.has TtyCode.CSR then
    (if tty_large_region ctx then (t, []) else tty_redraw_region ext t ctx)
  else if ctx.num ≠ 0 ∧ t.term.flags &&& TERM_EARLYWRAP = 0 then (t, [])
  else
    let a := tty_attributes ext t grid_default_cell (some ctx.wp)
    let b := tty_region_pane a.1 ctx ctx.orupper ctx.orlower
    let c := tty_cursor_pane b.1 ctx ctx.ocx ctx.ocy
    let d := tty_putc c.1 10
    (d.1, a.2 ++ b.2 ++ c.2 ++ d.2)

/-- The EL-per-row loop of `tty_cmd_clearendofscreen` and
`tty_cmd_clearscreen`: EL on each row, then CUD and a shadow-row bump except
on the last screen row. -/
def tty_clear_el_rows (sizey : Nat) : Tty → List Nat → TRes
  | t, [] => (t, [])
  | t, i :: rest =>
    let a := tty_putcode t TtyCode.EL
    let b : TRes := if i = u32sub sizey 1 then (a.1, [])
      else
        let e := tty_emulate_repeat a.1 TtyCode.CUD TtyCode.CUD1 1
        ({ e.1 with cy := (e.1.cy + 1) % M32 }, e.2)
    let c := tty_clear_el_rows sizey b.1 rest
    (c.1, a.2 ++ b.2 ++ c.2)

/-- The space-paint-per-row loop shared by the clear-screen family
fallbacks: home to column 0 of each row and fill it with spaces. -/
def tty_space_rows (ctx : TtyCtx) (sizex : Nat) : Tty → List Nat → TRes
  | t, [] => (t, [])
  | t, j :: rest =>
    let a := tty_cursor_pane t ctx 0 j
    let b := tty_repeat_space a.1 sizex
    let c := tty_space_rows ctx sizex b.1 rest
    (c.1, a.2 ++ b.2 ++ c.2)

/-- `tty_cmd_clearendofscreen`: per-row EL walking down with CUD when
possible, otherwise space-paint the cursor row tail and every row below. -/
def tty_cmd_clearendofscreen (ext : Ext) (t : Tty) (ctx : TtyCtx) : TRes :=
  let s := ctx.wp.screen
  let a := tty_attributes ext t grid_default_cell (some ctx.wp)
  let b := tty_region_pane a.1 ctx 0 (u32sub s.sizey 1)
  let c := tty_cursor_pane b.1 ctx ctx.ocx ctx.ocy
  let d : TRes :=
    if tty_pane_full_width c.1 ctx ∧ c.1.term.has TtyCode.EL ∧
        ¬ tty_fake_bce c.1 (some ctx.wp) then
      let e1 := tty_putcode c.1 TtyCode.EL
      if ctx.ocy ≠ u32sub s.sizey 1 then
        let e2 := tty_cursor_pane e1.1 ctx 0 ((ctx.ocy + 1) % M32)
        let e3 := tty_clear_el_rows s.sizey e2.1
          (List.range' (ctx.ocy + 1) (s.sizey - (ctx.ocy + 1)))
        (e3.1, e1.2 ++ e2.2 ++ e3.2)
      else e1
    else
      let e1 := tty_repeat_space c.1 (u32sub s.sizex ctx.ocx)
      let e2 := tty_space_rows ctx s.sizex e1.1
        (List.range' (ctx.ocy + 1) (s.sizey - (ctx.ocy + 1)))
      (e2.1, e1.2 ++ e2.2)
  (d.1, a.2 ++ b.2 ++ c.2 ++ d.2)

/-- The EL-per-row loop of `tty_cmd_clearstartofscreen`: EL then CUD on each
of the rows above the cursor. -/
def tty_clear_sos_el_rows : Tty → Nat → TRes
  | t, 0 => (t, [])
  | t, n + 1 =>
    let a := tty_putcode t TtyCode.EL
    let b := tty_emulate_repeat a.1 TtyCode.CUD TtyCode.CUD1 1
    let b1 := { b.1 with cy := (b.1.cy + 1) % M32 }
    let c := tty_clear_sos_el_rows b1 n
    (c.1, a.2 ++ b.2 ++ c.2)

/-- `tty_cmd_clearstartofscreen`: per-row EL down to the cursor row when
possible, otherwise space-paint those rows; then spaces up to and including
the cursor column. -/
def tty_cmd_clearstartofscreen (ext : Ext) (t : Tty) (ctx : TtyCtx) : TRes :=
  let s := ctx.wp.screen
  let a := tty_attributes ext t grid_default_cell (some ctx.wp)
  let b := tty_region_pane a.1 ctx 0 (u32sub s.sizey 1)
  let c := tty_cursor_pane b.1 ctx 0 0
  let d : TRes :=
    if tty_pane_full_width c.1 ctx ∧ c.1.term.has TtyCode.EL ∧
        ¬ tty_fake_bce c.1 (some ctx.wp) then
      tty_clear_sos_el_rows c.1 ctx.ocy
    else tty_space_rows ctx s.sizex c.1 (List.range ctx.ocy)
  let e := tty_repeat_space d.1 ((ctx.ocx + 1) % M32)
  (e.1, a.2 ++ b.2 ++ c.2 ++ d.2 ++ e.2)

/-- `tty_cmd_clearscreen`: per-row EL over the whole screen when possible,
otherwise space-paint every row. -/
def tty_cmd_clearscreen (ext : Ext) (t : Tty) (ctx : TtyCtx) : TRes :=
  let s := ctx.wp.screen
  let a := tty_attributes ext t grid_default_cell (some ctx.wp)
  let b := tty_region_pane a.1 ctx 0 (u32sub s.sizey 1)
  let c := tty_cursor_pane b.1 ctx 0 0
  let d : TRes :=
    if tty_pane_full_width c.1 ctx ∧ c.1.term.has TtyCode.EL ∧
        ¬ tty_fake_bce c.1 (some ctx.wp) then
      tty_clear_el_rows s.sizey c.1 (List.range s.sizey)
    else tty_space_rows ctx s.sizex c.1 (List.range s.sizey)
  (d.1, a.2 ++ b.2 ++ c.2 ++ d.2)

/-- The capability table left by `memset(tty, 0, sizeof *tty)`: a NULL
`term` pointer, modelled as a table with nothing. -/
def zeroTerm : Term :=
  { has := fun _ => false, flag := fun _ => false, num := fun _ => 0, flags := 0
    acs := fun _ => none, exp0 := fun _ => [], exp1 := fun _ _ => []
    exp2 := fun _ _ _ => [], expS := fun _ _ => [], expSS := fun _ _ _ => [] }

/-- An all-zero grid cell, as left by `memset`. -/
def zeroCell : GridCell :=
  { attr := 0, flags := 0, fg := 0, bg := 0, data := { size := 0, width := 0, data := [] } }

/-- The `struct tty` left by `memset(tty, 0, sizeof *tty)`. -/
def zeroTty : Tty :=
  { fd := 0, client := 0, termname := "", term := zeroTerm, sx := 0, sy := 0
    cx := 0, cy := 0, rupper := 0, rlower := 0, cell := zeroCell, mode := 0
    ccolour := "", cstyle := 0, flags := 0, term_flags := 0, log_on := false }

/-- `tty_init`: fail (returning -1) without touching the structure when the
fd is not a terminal; otherwise zero the structure and store the terminal
name (defaulting to "unknown" when absent or empty), the fd and the client.
`fdIsTty` embeds the external `isatty(fd)`; `log_on` carries the process
global, which `memset` does not touch. -/
def tty_init (t : Tty) (c : Nat) (fd : Int) (fdIsTty : Bool) (term : Option String) :
    Int × Tty :=
  if ¬ fdIsTty then (-1, t)
  else
    let name := match term with
      | none => "unknown"
      | some s => if s = "" then "unknown" else s
    let t1 : Tty :=
      { zeroTty with
        termname := name
        fd := fd
        client := c
        cstyle := 0
        ccolour := ""
        flags := 0
        term_flags := 0
        log_on := t.log_on }
    (0, t1)

/-- The bulk-erase capability codes: EL/EL1/ED/ECH/ICH/ICH1/DCH/DCH1/IL/IL1/
DL/DL1. -/
def eraseCode : TtyCode → Bool
  | TtyCode.EL => true
  | TtyCode.EL1 => true
  | TtyCode.ED => true
  | TtyCode.ECH => true
  | TtyCode.ICH => true
  | TtyCode.ICH1 => true
  | TtyCode.DCH => true
  | TtyCode.DCH1 => true
  | TtyCode.IL => true
  | TtyCode.IL1 => true
  | TtyCode.DL => true
  | TtyCode.DL1 => true
  | _ => false

/-- Whether an emission invokes a bulk-erase capability. -/
def emissionErase : Emission → Bool
  | Emission.cap0 c => eraseCode c
  | Emission.cap1 c _ => eraseCode c
  | Emission.cap2 c _ _ => eraseCode c
  | Emission.capS c _ => eraseCode c
  | Emission.capSS c _ _ => eraseCode c
  | _ => false

/-- A trace free of bulk-erase primitives. -/
def eraseFree (es : List Emission) : Bool := es.all fun e => ! emissionErase e

/-- Whether an emission carries cell character data (the `tty_putc` /
`tty_putn` events); capability and literal-string events do not. -/
def emissionData : Emission → Bool
  | Emission.byte _ _ => true
  | Emission.bytes _ => true
  | _ => false

/-- A trace free of character-data writes. -/
def dataFree (es : List Emission) : Bool := es.all fun e => ! emissionData e

/-- The active-pane style as `tty_default_colours` selects it: the
`window-active-style` option when `WINDOW_STYLECHANGED` forces a re-fetch,
the window's cached copy otherwise. -/
def resolved_active_style (w : Window) : GridCell :=
  if w.flags &&& WINDOW_STYLECHANGED ≠ 0 then w.optActiveStyle else w.active_style

/-- The window style as `tty_default_colours` selects it (see
`resolved_active_style`). -/
def resolved_window_style (w : Window) : GridCell :=
  if w.flags &&& WINDOW_STYLECHANGED ≠ 0 then w.optStyle else w.style

/-! ### Concrete states for witnesses and counterexamples -/

/-- External collaborators for concrete evaluation: the palette fold keeps
the low four bits (what `colour_256to16` gives on the values used below). -/
def extT : Ext :=
  { find_rgb := fun _ _ _ => 0, c256to16 := fun c => c &&& 15, default_terminal := "xterm" }

/-- A capability table with every capability present, no boolean flags
(in particular no BCE), 16 colours, no 256-colour mode, one ACS entry
(`q` → `l`) and one-byte expansions. -/
def termT : Term :=
  { has := fun _ => true
    flag := fun _ => false
    num := fun _ => 16
    flags := 0
    acs := fun ch => if ch = 113 then some [108] else none
    exp0 := fun _ => [27]
    exp1 := fun _ _ => [27]
    exp2 := fun _ _ _ => [27]
    expS := fun _ _ => [27]
    expSS := fun _ _ _ => [27] }

/-- A 2x2 screen of default cells. -/
def screenT : Screen :=
  { sizex := 2, sizey := 2, rupper := 0, rlower := 1, ccolour := "", cstyle := 0
    hsize := 0, cellsize := fun _ => 2, lineWrapped := fun _ => false
    cellAt := fun _ _ => grid_default_cell, selCell := fun g => g }

/-- A pane whose `colgc` carries a non-default background, so that
`tty_fake_bce` holds against `termT` (which does not declare BCE). -/
def paneT : Pane :=
  { window := { flags := 0, optActiveStyle := grid_default_cell, optStyle := grid_default_cell
                active_style := grid_default_cell, style := grid_default_cell }
    isActive := true
    colgc := { grid_default_cell with fg := 2, bg := 1 }
    screen := screenT, sx := 2, xoff := 0, yoff := 0 }

/-- A base tty over `termT`: 2x2, whole-screen region, logging configured. -/
def ttyT : Tty :=
  { fd := 1, client := 0, termname := "xterm", term := termT, sx := 2, sy := 2
    cx := 0, cy := 0, rupper := 0, rlower := 1, cell := grid_default_cell, mode := 0
    ccolour := "", cstyle := 0, flags := 0, term_flags := 0, log_on := true }

/-- A context over `paneT`; its cursor row 0 differs from its region bottom 1. -/
def ctxT : TtyCtx :=
  { wp := paneT, ocx := 0, ocy := 0, orupper := 0, orlower := 1, xoff := 0, yoff := 0
    num := 1, ptr := [], cell := grid_default_cell, last_cell := grid_default_cell }

/-- A cell asking for the 256-palette colour 9 as background with foreground
7, exercising the 256-to-16 downgrade of `tty_check_bg`. -/
def gcC1 : GridCell := { grid_default_cell with fg := 7, bg := COLOUR_FLAG_256 ||| 9 }

/-- A tty whose shadow cell has the ACS charset attribute active. -/
def ttyC7 : Tty := { ttyT with cell := { grid_default_cell with attr := GRID_ATTR_CHARSET } }

/-- A started 80x24 tty with the shadow cursor on the last column. -/
def ttyC4 : Tty :=
  { ttyT with sx := 80, sy := 24, cx := 79, cy := 0, rlower := 23, flags := TTY_STARTED }

/-- An 80x24 tty with cursor (0,5) inside the scroll region [3,7]; moving to
row 0 crosses the region upward in the same column. -/
def ttyC3 : Tty :=
  { ttyT with sx := 80, sy := 24, cx := 0, cy := 5, rupper := 3, rlower := 7 }

/-- A single-byte BEL cell (a control character below 0x20). -/
def gcCtrl : GridCell :=
  { grid_default_cell with data := { size := 1, width := 1, data := [7] } }

/-- A padding cell (the trailing half of a wide character). -/
def gcPad : GridCell := { grid_default_cell with flags := GRID_FLAG_PADDING }

/-! ### Trace-predicate algebra -/

@[simp]
theorem eraseFree_nil : eraseFree [] = true := rfl

@[simp]
theorem eraseFree_append (a b : List Emission) :
    eraseFree (a ++ b) = (eraseFree a && eraseFree b) := List.all_append

@[simp]
theorem dataFree_nil : dataFree [] = true := rfl

@[simp]
theorem dataFree_append (a b : List Emission) :
    dataFree (a ++ b) = (dataFree a && dataFree b) := List.all_append

@[simp]
theorem eraseFree_cons (e : Emission) (es : List Emission) :
    eraseFree (e :: es) = (! emissionErase e && eraseFree es) := rfl

@[simp]
theorem dataFree_cons (e : Emission) (es : List Emission) :
    dataFree (e :: es) = (! emissionData e && dataFree es) := rfl

@[simp]
theorem emissionErase_cap0 (c : TtyCode) : emissionErase (Emission.cap0 c) = eraseCode c := rfl

@[simp]
theorem emissionErase_cap1 (c : TtyCode) (a : Nat) :
    emissionErase (Emission.cap1 c a) = eraseCode c := rfl

@[simp]
theorem emissionErase_cap2 (c : TtyCode) (a b : Nat) :
    emissionErase (Emission.cap2 c a b) = eraseCode c := rfl

@[simp]
theorem emissionErase_capS (c : TtyCode) (s : List Nat) :
    emissionErase (Emission.capS c s) = eraseCode c := rfl

@[simp]
theorem emissionErase_capSS (c : TtyCode) (a b : List Nat) :
    emissionErase (Emission.capSS c a b) = eraseCode c := rfl

@[simp]
theorem emissionErase_lit (s : List Nat) : emissionErase (Emission.lit s) = false := rfl

@[simp]
theorem emissionErase_byte (o : Nat) (s : List Nat) :
    emissionErase (Emission.byte o s) = false := rfl

@[simp]
theorem emissionErase_bytes (s : List Nat) : emissionErase (Emission.bytes s) = false := rfl

@[simp]
theorem emissionData_cap0 (c : TtyCode) : emissionData (Emission.cap0 c) = false := rfl

@[simp]
theorem emissionData_cap1 (c : TtyCode) (a : Nat) :
    emissionData (Emission.cap1 c a) = false := rfl

@[simp]
theorem emissionData_cap2 (c : TtyCode) (a b : Nat) :
    emissionData (Emission.cap2 c a b) = false := rfl

@[simp]
theorem emissionData_capS (c : TtyCode) (s : List Nat) :
    emissionData (Emission.capS c s) = false := rfl

@[simp]
theorem emissionData_capSS (c : TtyCode) (a b : List Nat) :
    emissionData (Emission.capSS c a b) = false := rfl

@[simp]
theorem emissionData_lit (s : List Nat) : emissionData (Emission.lit s) = false := rfl

/-! ### Output primitives

For every buffered-output operation we record, as rewrite rules, which shadow
fields it can change (`_fst` when it changes none, otherwise one equation per
preserved field that later proofs need) and whether its trace is free of
bulk-erase capabilities and of character data.  Once a function's lemmas are
proved the function is sealed with `irreducible` so that later proofs treat
it as an opaque step and never unfold it during unification. -/

@[simp]
theorem tty_puts_fst (t : Tty) (s : List Nat) : (tty_puts t s).1 = t := by
  unfold tty_puts; split <;> rfl

@[simp]
theorem eraseFree_puts (t : Tty) (s : List Nat) : eraseFree (tty_puts t s).2 = true := by
  unfold tty_puts; split <;> rfl

@[simp]
theorem dataFree_puts (t : Tty) (s : List Nat) : dataFree (tty_puts t s).2 = true := by
  unfold tty_puts; split <;> rfl

attribute [irreducible] tty_puts

@[simp]
theorem tty_putcode_fst (t : Tty) (c : TtyCode) : (tty_putcode t c).1 = t := rfl

@[simp]
theorem eraseFree_putcode (t : Tty) (c : TtyCode) :
    eraseFree (tty_putcode t c).2 = ! eraseCode c := by
  simp [tty_putcode, eraseFree, emissionErase]

@[simp]
theorem dataFree_putcode (t : Tty) (c : TtyCode) : dataFree (tty_putcode t c).2 = true := rfl

@[simp]
theorem tty_putcode1_fst (t : Tty) (c : TtyCode) (a : Nat) : (tty_putcode1 t c a).1 = t := rfl

@[simp]
theorem eraseFree_putcode1 (t : Tty) (c : TtyCode) (a : Nat) :
    eraseFree (tty_putcode1 t c a).2 = ! eraseCode c := by
  simp [tty_putcode1, eraseFree, emissionErase]

@[simp]
theorem dataFree_putcode1 (t : Tty) (c : TtyCode) (a : Nat) :
    dataFree (tty_putcode1 t c a).2 = true := rfl

@[simp]
theorem tty_putcode2_fst (t : Tty) (c : TtyCode) (a b : Nat) : (tty_putcode2 t c a b).1 = t := rfl

@[simp]
theorem eraseFree_putcode2 (t : Tty) (c : TtyCode) (a b : Nat) :
    eraseFree (tty_putcode2 t c a b).2 = ! eraseCode c := by
  simp [tty_putcode2, eraseFree, emissionErase]

@[simp]
theorem dataFree_putcode2 (t : Tty) (c : TtyCode) (a b : Nat) :
    dataFree (tty_putcode2 t c a b).2 = true := rfl

@[simp]
theorem tty_putcode_ptr1_fst (t : Tty) (c : TtyCode) (a : List Nat) :
    (tty_putcode_ptr1 t c a).1 = t := rfl

@[simp]
theorem eraseFree_putcode_ptr1 (t : Tty) (c : TtyCode) (a : List Nat) :
    eraseFree (tty_putcode_ptr1 t c a).2 = ! eraseCode c := by
  simp [tty_putcode_ptr1, eraseFree, emissionErase]

@[simp]
theorem dataFree_putcode_ptr1 (t : Tty) (c : TtyCode) (a : List Nat) :
    dataFree (tty_putcode_ptr1 t c a).2 = true := rfl

@[simp]
theorem tty_putcode_ptr2_fst (t : Tty) (c : TtyCode) (a b : List Nat) :
    (tty_putcode_ptr2 t c a b).1 = t := rfl

@[simp]
theorem eraseFree_putcode_ptr2 (t : Tty) (c : TtyCode) (a b : List Nat) :
    eraseFree (tty_putcode_ptr2 t c a b).2 = ! eraseCode c := by
  simp [tty_putcode_ptr2, eraseFree, emissionErase]

@[simp]
theorem dataFree_putcode_ptr2 (t : Tty) (c : TtyCode) (a b : List Nat) :
    dataFree (tty_putcode_ptr2 t c a b).2 = true := rfl

attribute [irreducible] tty_putcode tty_putcode1 tty_putcode2
attribute [irreducible] tty_putcode_ptr1 tty_putcode_ptr2

@[simp]
theorem tty_putc_term (t : Tty) (ch : Nat) : (tty_putc t ch).1.term = t.term := by
  unfold tty_putc; dsimp only; repeat' split
  all_goals rfl

@[simp]
theorem tty_putc_sx (t : Tty) (ch : Nat) : (tty_putc t ch).1.sx = t.sx := by
  unfold tty_putc; dsimp only; repeat' split
  all_goals rfl

@[simp]
theorem eraseFree_putc (t : Tty) (ch : Nat) : eraseFree (tty_putc t ch).2 = true := rfl

attribute [irreducible] tty_putc

@[simp]
theorem tty_putn_term (t : Tty) (buf : List Nat) (w : Nat) :
    (tty_putn t buf w).1.term = t.term := rfl

@[simp]
theorem eraseFree_putn (t : Tty) (buf : List Nat) (w : Nat) :
    eraseFree (tty_putn t buf w).2 = true := rfl

attribute [irreducible] tty_putn

@[simp]
theorem tty_putc_times_term (ch : Nat) :
    ∀ (n : Nat) (t : Tty), (tty_putc_times t ch n).1.term = t.term := by
  intro n
  induction n with
  | zero => intro t; rfl
  | succ n ih =>
    intro t
    simp only [tty_putc_times]
    rw [ih, tty_putc_term]

@[simp]
theorem eraseFree_putc_times (ch : Nat) :
    ∀ (n : Nat) (t : Tty), eraseFree (tty_putc_times t ch n).2 = true := by
  intro n
  induction n with
  | zero => intro t; rfl
  | succ n ih =>
    intro t
    simp only [tty_putc_times, eraseFree_append, eraseFree_putc, ih, Bool.and_self]

attribute [irreducible] tty_putc_times

@[simp]
theorem tty_repeat_space_term (t : Tty) (n : Nat) :
    (tty_repeat_space t n).1.term = t.term := tty_putc_times_term 32 n t

@[simp]
theorem eraseFree_repeat_space (t : Tty) (n : Nat) :
    eraseFree (tty_repeat_space t n).2 = true := eraseFree_putc_times 32 n t

attribute [irreducible] tty_repeat_space

@[simp]
theorem tty_emulate_repeat_fst (t : Tty) (c c1 : TtyCode) (n : Nat) :
    (tty_emulate_repeat t c c1 n).1 = t := by
  unfold tty_emulate_repeat; split <;> simp

theorem eraseFree_emulate_repeat (t : Tty) (c c1 : TtyCode) (n : Nat)
    (h : eraseCode c = false) (h1 : eraseCode c1 = false) :
    eraseFree (tty_emulate_repeat t c c1 n).2 = true := by
  unfold tty_emulate_repeat
  split
  · simp [h]
  · simp [eraseFree, List.all_eq_true, emissionErase, h1]

attribute [irreducible] tty_emulate_repeat

/-! ### Cursor movement -/

@[simp]
theorem tty_cursor_same_row_term (t : Tty) (cx cy : Nat) :
    (tty_cursor_same_row t cx cy).1.term = t.term := by
  unfold tty_cursor_same_row; dsimp only
  simp [apply_ite Tty.term, apply_ite Prod.fst]

@[simp]
theorem tty_cursor_same_row_sx (t : Tty) (cx cy : Nat) :
    (tty_cursor_same_row t cx cy).1.sx = t.sx := by
  unfold tty_cursor_same_row; dsimp only
  simp [apply_ite Tty.sx, apply_ite Prod.fst]

@[simp]
theorem eraseFree_cursor_same_row (t : Tty) (cx cy : Nat) :
    eraseFree (tty_cursor_same_row t cx cy).2 = true := by
  unfold tty_cursor_same_row; dsimp only
  simp +decide [apply_ite eraseFree, apply_ite Prod.snd]

attribute [irreducible] tty_cursor_same_row

@[simp]
theorem tty_cursor_same_col_term (t : Tty) (cx cy : Nat) :
    (tty_cursor_same_col t cx cy).1.term = t.term := by
  unfold tty_cursor_same_col; dsimp only
  simp [apply_ite Tty.term, apply_ite Prod.fst]

@[simp]
theorem tty_cursor_same_col_sx (t : Tty) (cx cy : Nat) :
    (tty_cursor_same_col t cx cy).1.sx = t.sx := by
  unfold tty_cursor_same_col; dsimp only
  simp [apply_ite Tty.sx, apply_ite Prod.fst]

@[simp]
theorem eraseFree_cursor_same_col (t : Tty) (cx cy : Nat) :
    eraseFree (tty_cursor_same_col t cx cy).2 = true := by
  unfold tty_cursor_same_col; dsimp only
  simp +decide [apply_ite eraseFree, apply_ite Prod.snd]

attribute [irreducible] tty_cursor_same_col

@[simp]
theorem tty_cursor_emit_term (t : Tty) (cx cy : Nat) :
    (tty_cursor_emit t cx cy).1.term = t.term := by
  unfold tty_cursor_emit; dsimp only
  simp [apply_ite Tty.term, apply_ite Prod.fst]

@[simp]
theorem tty_cursor_emit_sx (t : Tty) (cx cy : Nat) :
    (tty_cursor_emit t cx cy).1.sx = t.sx := by
  unfold tty_cursor_emit; dsimp only
  simp [apply_ite Tty.sx, apply_ite Prod.fst]

@[simp]
theorem eraseFree_cursor_emit (t : Tty) (cx cy : Nat) :
    eraseFree (tty_cursor_emit t cx cy).2 = true := by
  unfold tty_cursor_emit; dsimp only
  simp +decide [apply_ite eraseFree, apply_ite Prod.snd]

attribute [irreducible] tty_cursor_emit

@[simp]
theorem tty_cursor_term (t : Tty) (cx0 cy0 : Nat) :
    (tty_cursor t cx0 cy0).1.term = t.term := by
  unfold tty_cursor; dsimp only
  simp [apply_ite Tty.term, apply_ite Prod.fst]

@[simp]
theorem tty_cursor_sx (t : Tty) (cx0 cy0 : Nat) :
    (tty_cursor t cx0 cy0).1.sx = t.sx := by
  unfold tty_cursor; dsimp only
  simp [apply_ite Tty.sx, apply_ite Prod.fst]

/-- The shadow column after `tty_cursor` is always the clamped target. -/
theorem tty_cursor_cx (t : Tty) (cx0 cy0 : Nat) :
    (tty_cursor t cx0 cy0).1.cx = if cx0 > u32sub t.sx 1 then u32sub t.sx 1 else cx0 := by
  unfold tty_cursor; dsimp only
  split
  · split
    next h2 => exact h2.1.symm
    next _ => rfl
  · split
    next h2 => exact h2.1.symm
    next _ => rfl

/-- The shadow row after `tty_cursor` is always the target row. -/
theorem tty_cursor_cy (t : Tty) (cx0 cy0 : Nat) :
    (tty_cursor t cx0 cy0).1.cy = cy0 := by
  unfold tty_cursor; dsimp only
  split
  · split
    next h2 => exact h2.2.symm
    next _ => rfl
  · split
    next h2 => exact h2.2.symm
    next _ => rfl

/-- `tty_cursor` with a target matching the shadow cursor is a silent no-op
(the C returns before emitting). -/
theorem tty_cursor_noop (t : Tty) (cx0 cy0 : Nat)
    (h1 : (if cx0 > u32sub t.sx 1 then u32sub t.sx 1 else cx0) = t.cx) (h2 : cy0 = t.cy) :
    tty_cursor t cx0 cy0 = (t, []) := by
  unfold tty_cursor; dsimp only
  rw [if_pos ⟨h1, h2⟩]

@[simp]
theorem eraseFree_cursor (t : Tty) (cx0 cy0 : Nat) :
    eraseFree (tty_cursor t cx0 cy0).2 = true := by
  unfold tty_cursor; dsimp only
  simp [apply_ite eraseFree, apply_ite Prod.snd]

attribute [irreducible] tty_cursor

@[simp]
theorem tty_cursor_pane_term (t : Tty) (ctx : TtyCtx) (cx cy : Nat) :
    (tty_cursor_pane t ctx cx cy).1.term = t.term := by
  simp [tty_cursor_pane]

@[simp]
theorem eraseFree_cursor_pane (t : Tty) (ctx : TtyCtx) (cx cy : Nat) :
    eraseFree (tty_cursor_pane t ctx cx cy).2 = true := by
  simp [tty_cursor_pane]

attribute [irreducible] tty_cursor_pane

@[simp]
theorem tty_region_term (t : Tty) (ru rl : Nat) : (tty_region t ru rl).1.term = t.term := by
  unfold tty_region; dsimp only
  simp [apply_ite Tty.term, apply_ite Prod.fst]

@[simp]
theorem eraseFree_region (t : Tty) (ru rl : Nat) : eraseFree (tty_region t ru rl).2 = true := by
  unfold tty_region; dsimp only
  simp +decide [apply_ite eraseFree, apply_ite Prod.snd]

attribute [irreducible] tty_region

@[simp]
theorem tty_region_pane_term (t : Tty) (ctx : TtyCtx) (ru rl : Nat) :
    (tty_region_pane t ctx ru rl).1.term = t.term := by
  simp [tty_region_pane]

@[simp]
theorem eraseFree_region_pane (t : Tty) (ctx : TtyCtx) (ru rl : Nat) :
    eraseFree (tty_region_pane t ctx ru rl).2 = true := by
  simp [tty_region_pane]

attribute [irreducible] tty_region_pane

/-! ### Attribute and mode reconciliation -/

@[simp]
theorem tty_reset_term (t : Tty) : (tty_reset t).1.term = t.term := by
  unfold tty_reset; dsimp only
  simp [apply_ite Tty.term, apply_ite Prod.fst]

@[simp]
theorem tty_reset_cx (t : Tty) : (tty_reset t).1.cx = t.cx := by
  unfold tty_reset; dsimp only
  simp [apply_ite Tty.cx, apply_ite Prod.fst]

@[simp]
theorem tty_reset_cy (t : Tty) : (tty_reset t).1.cy = t.cy := by
  unfold tty_reset; dsimp only
  simp [apply_ite Tty.cy, apply_ite Prod.fst]

@[simp]
theorem eraseFree_reset (t : Tty) : eraseFree (tty_reset t).2 = true := by
  unfold tty_reset; dsimp only
  simp +decide [apply_ite eraseFree, apply_ite Prod.snd]

@[simp]
theorem dataFree_reset (t : Tty) : dataFree (tty_reset t).2 = true := by
  unfold tty_reset; dsimp only
  simp +decide [apply_ite dataFree, apply_ite Prod.snd]

attribute [irreducible] tty_reset

@[simp]
theorem tty_force_cursor_colour_term (t : Tty) (c : String) :
    (tty_force_cursor_colour t c).1.term = t.term := by
  unfold tty_force_cursor_colour; dsimp only
  simp [apply_ite Tty.term, apply_ite Prod.fst]

@[simp]
theorem eraseFree_force_cursor_colour (t : Tty) (c : String) :
    eraseFree (tty_force_cursor_colour t c).2 = true := by
  unfold tty_force_cursor_colour; dsimp only
  simp +decide [apply_ite eraseFree, apply_ite Prod.snd]

attribute [irreducible] tty_force_cursor_colour

@[simp]
theorem tty_set_italics_fst (ext : Ext) (t : Tty) : (tty_set_italics ext t).1 = t := by
  unfold tty_set_italics; split <;> simp

@[simp]
theorem eraseFree_set_italics (ext : Ext) (t : Tty) :
    eraseFree (tty_set_italics ext t).2 = true := by
  unfold tty_set_italics; split <;> simp +decide

@[simp]
theorem dataFree_set_italics (ext : Ext) (t : Tty) :
    dataFree (tty_set_italics ext t).2 = true := by
  unfold tty_set_italics; split <;> simp

attribute [irreducible] tty_set_italics

@[simp]
theorem tty_update_mode_term (t0 : Tty) (mode0 : Nat) (s : Option Screen) :
    (tty_update_mode t0 mode0 s).1.term = t0.term := by
  unfold tty_update_mode
  cases s <;> dsimp only <;> simp [apply_ite Tty.term, apply_ite Prod.fst]

@[simp]
theorem eraseFree_update_mode (t0 : Tty) (mode0 : Nat) (s : Option Screen) :
    eraseFree (tty_update_mode t0 mode0 s).2 = true := by
  unfold tty_update_mode
  cases s <;> dsimp only <;> simp +decide [apply_ite eraseFree, apply_ite Prod.snd]

attribute [irreducible] tty_update_mode

/-- `tty_fake_bce` reads the tty only through its capability table, so it is
stable across every operation that preserves `term`. -/
theorem tty_fake_bce_congr {a b : Tty} (wp : Option Pane) (h : a.term = b.term) :
    tty_fake_bce a wp = tty_fake_bce b wp := by
  unfold tty_fake_bce; rw [h]

attribute [irreducible] tty_fake_bce tty_default_colours grid_cells_equal tty_use_acs
attribute [irreducible] tty_check_fg tty_check_bg tty_pane_full_width tty_large_region

/-! ### Colour emission -/

@[simp]
theorem tty_try_colour_fst (t : Tty) (colour : Nat) (ty : String) :
    (tty_try_colour t colour ty).1 = t := by
  unfold tty_try_colour; dsimp only
  simp [apply_ite Prod.fst]

@[simp]
theorem eraseFree_try_colour (t : Tty) (colour : Nat) (ty : String) :
    eraseFree (tty_try_colour t colour ty).2.1 = true := by
  unfold tty_try_colour; dsimp only
  simp +decide [apply_ite eraseFree, apply_ite Prod.snd, apply_ite Prod.fst]

@[simp]
theorem dataFree_try_colour (t : Tty) (colour : Nat) (ty : String) :
    dataFree (tty_try_colour t colour ty).2.1 = true := by
  unfold tty_try_colour; dsimp only
  simp +decide [apply_ite dataFree, apply_ite Prod.snd, apply_ite Prod.fst]

attribute [irreducible] tty_try_colour

@[simp]
theorem tty_colours_fg_term (t : Tty) (gc : GridCell) :
    (tty_colours_fg t gc).1.term = t.term := by
  unfold tty_colours_fg; dsimp only
  simp [apply_ite Tty.term, apply_ite Prod.fst]

@[simp]
theorem tty_colours_fg_cx (t : Tty) (gc : GridCell) : (tty_colours_fg t gc).1.cx = t.cx := by
  unfold tty_colours_fg; dsimp only
  simp [apply_ite Tty.cx, apply_ite Prod.fst]

@[simp]
theorem tty_colours_fg_cy (t : Tty) (gc : GridCell) : (tty_colours_fg t gc).1.cy = t.cy := by
  unfold tty_colours_fg; dsimp only
  simp [apply_ite Tty.cy, apply_ite Prod.fst]

@[simp]
theorem eraseFree_colours_fg (t : Tty) (gc : GridCell) :
    eraseFree (tty_colours_fg t gc).2 = true := by
  unfold tty_colours_fg; dsimp only
  simp +decide [apply_ite eraseFree, apply_ite Prod.snd]

@[simp]
theorem dataFree_colours_fg (t : Tty) (gc : GridCell) :
    dataFree (tty_colours_fg t gc).2 = true := by
  unfold tty_colours_fg; dsimp only
  simp +decide [apply_ite dataFree, apply_ite Prod.snd]

attribute [irreducible] tty_colours_fg

@[simp]
theorem tty_colours_bg_term (t : Tty) (gc : GridCell) :
    (tty_colours_bg t gc).1.term = t.term := by
  unfold tty_colours_bg; dsimp only
  simp [apply_ite Tty.term, apply_ite Prod.fst]

@[simp]
theorem tty_colours_bg_cx (t : Tty) (gc : GridCell) : (tty_colours_bg t gc).1.cx = t.cx := by
  unfold tty_colours_bg; dsimp only
  simp [apply_ite Tty.cx, apply_ite Prod.fst]

@[simp]
theorem tty_colours_bg_cy (t : Tty) (gc : GridCell) : (tty_colours_bg t gc).1.cy = t.cy := by
  unfold tty_colours_bg; dsimp only
  simp [apply_ite Tty.cy, apply_ite Prod.fst]

@[simp]
theorem eraseFree_colours_bg (t : Tty) (gc : GridCell) :
    eraseFree (tty_colours_bg t gc).2 = true := by
  unfold tty_colours_bg; dsimp only
  simp +decide [apply_ite eraseFree, apply_ite Prod.snd]

@[simp]
theorem dataFree_colours_bg (t : Tty) (gc : GridCell) :
    dataFree (tty_colours_bg t gc).2 = true := by
  unfold tty_colours_bg; dsimp only
  simp +decide [apply_ite dataFree, apply_ite Prod.snd]

attribute [irreducible] tty_colours_bg

@[simp]
theorem tty_colours_term (t0 : Tty) (gc : GridCell) : (tty_colours t0 gc).1.term = t0.term := by
  unfold tty_colours; dsimp only
  simp [apply_ite Tty.term, apply_ite Prod.fst]

@[simp]
theorem tty_colours_cx (t0 : Tty) (gc : GridCell) : (tty_colours t0 gc).1.cx = t0.cx := by
  unfold tty_colours; dsimp only
  simp [apply_ite Tty.cx, apply_ite Prod.fst]

@[simp]
theorem tty_colours_cy (t0 : Tty) (gc : GridCell) : (tty_colours t0 gc).1.cy = t0.cy := by
  unfold tty_colours; dsimp only
  simp [apply_ite Tty.cy, apply_ite Prod.fst]

@[simp]
theorem eraseFree_colours (t0 : Tty) (gc : GridCell) :
    eraseFree (tty_colours t0 gc).2 = true := by
  unfold tty_colours; dsimp only
  simp +decide [apply_ite eraseFree, apply_ite Prod.snd]

@[simp]
theorem dataFree_colours (t0 : Tty) (gc : GridCell) :
    dataFree (tty_colours t0 gc).2 = true := by
  unfold tty_colours; dsimp only
  simp +decide [apply_ite dataFree, apply_ite Prod.snd]

attribute [irreducible] tty_colours

@[simp]
theorem tty_attributes_term (ext : Ext) (t0 : Tty) (gc : GridCell) (wp : Option Pane) :
    (tty_attributes ext t0 gc wp).1.term = t0.term := by
  unfold tty_attributes; dsimp only
  simp [apply_ite Tty.term, apply_ite Prod.fst]

@[simp]
theorem tty_attributes_cx (ext : Ext) (t0 : Tty) (gc : GridCell) (wp : Option Pane) :
    (tty_attributes ext t0 gc wp).1.cx = t0.cx := by
  unfold tty_attributes; dsimp only
  simp [apply_ite Tty.cx, apply_ite Prod.fst]

@[simp]
theorem tty_attributes_cy (ext : Ext) (t0 : Tty) (gc : GridCell) (wp : Option Pane) :
    (tty_attributes ext t0 gc wp).1.cy = t0.cy := by
  unfold tty_attributes; dsimp only
  simp [apply_ite Tty.cy, apply_ite Prod.fst]

@[simp]
theorem eraseFree_attributes (ext : Ext) (t0 : Tty) (gc : GridCell) (wp : Option Pane) :
    eraseFree (tty_attributes ext t0 gc wp).2 = true := by
  unfold tty_attributes; dsimp only
  simp +decide [apply_ite eraseFree, apply_ite Prod.snd]

@[simp]
theorem dataFree_attributes (ext : Ext) (t0 : Tty) (gc : GridCell) (wp : Option Pane) :
    dataFree (tty_attributes ext t0 gc wp).2 = true := by
  unfold tty_attributes; dsimp only
  simp +decide [apply_ite dataFree, apply_ite Prod.snd]

attribute [irreducible] tty_attributes

@[simp]
theorem tty_cell_term (ext : Ext) (t : Tty) (gc : GridCell) (wp : Option Pane) :
    (tty_cell ext t gc wp).1.term = t.term := by
  unfold tty_cell; dsimp only
  simp [apply_ite Tty.term, apply_ite Prod.fst]

@[simp]
theorem eraseFree_cell (ext : Ext) (t : Tty) (gc : GridCell) (wp : Option Pane) :
    eraseFree (tty_cell ext t gc wp).2 = true := by
  unfold tty_cell; dsimp only
  simp [apply_ite eraseFree, apply_ite Prod.snd]

attribute [irreducible] tty_cell

/-! ### Line drawing

The fake-BCE hypothesis `tty_fake_bce t wp = true` is transported across the
engine steps by `tty_fake_bce_congr` and the `term`-preservation rules, and
forces every EL branch of the tail fill and of the handlers into its
space-painting alternative. -/

@[simp]
theorem tty_draw_line_loop_term (ext : Ext) (wp : Option Pane) (s : Screen) (py : Nat) :
    ∀ (cols : List Nat) (t : Tty), (tty_draw_line_loop ext wp s py t cols).1.term = t.term := by
  intro cols
  induction cols with
  | nil => intro t; rfl
  | cons i rest ih =>
    intro t
    simp only [tty_draw_line_loop]
    rw [ih, tty_cell_term]

@[simp]
theorem eraseFree_draw_line_loop (ext : Ext) (wp : Option Pane) (s : Screen) (py : Nat) :
    ∀ (cols : List Nat) (t : Tty), eraseFree (tty_draw_line_loop ext wp s py t cols).2 = true := by
  intro cols
  induction cols with
  | nil => intro t; rfl
  | cons i rest ih =>
    intro t
    simp only [tty_draw_line_loop]
    simp [ih]

attribute [irreducible] tty_draw_line_loop

@[simp]
theorem tty_draw_line_tail_term (ext : Ext) (wp : Option Pane) (s : Screen)
    (sx py ox oy : Nat) (t : Tty) : (tty_draw_line_tail ext wp s sx py ox oy t).1.term = t.term := by
  unfold tty_draw_line_tail; dsimp only
  simp [apply_ite Tty.term, apply_ite Prod.fst]

theorem eraseFree_draw_line_tail (ext : Ext) (wp : Option Pane) (s : Screen)
    (sx py ox oy : Nat) (t : Tty) (hb : tty_fake_bce t wp = true) :
    eraseFree (tty_draw_line_tail ext wp s sx py ox oy t).2 = true := by
  unfold tty_draw_line_tail; dsimp only
  split
  · split
    next h =>
      exact absurd ((tty_fake_bce_congr wp
        (by simp [apply_ite Tty.term, apply_ite Prod.fst])).trans hb) h.2.2.2
    next _ => simp
  · rfl

attribute [irreducible] tty_draw_line_tail

@[simp]
theorem tty_draw_line_term (ext : Ext) (t0 : Tty) (wp : Option Pane) (s : Screen)
    (py ox oy : Nat) : (tty_draw_line ext t0 wp s py ox oy).1.term = t0.term := by
  unfold tty_draw_line; dsimp only
  simp [apply_ite Tty.term, apply_ite Prod.fst]

theorem eraseFree_draw_line (ext : Ext) (t0 : Tty) (wp : Option Pane) (s : Screen)
    (py ox oy : Nat) (hb : tty_fake_bce t0 wp = true) :
    eraseFree (tty_draw_line ext t0 wp s py ox oy).2 = true := by
  unfold tty_draw_line; dsimp only
  simp only [eraseFree_append, Bool.and_eq_true]
  repeat' apply And.intro
  all_goals first
    | exact eraseFree_draw_line_tail _ _ _ _ _ _ _ _ ((tty_fake_bce_congr wp
        (by simp [apply_ite Tty.term, apply_ite Prod.fst])).trans hb)
    | simp [apply_ite Prod.snd, apply_ite eraseFree]

attribute [irreducible] tty_draw_line

@[simp]
theorem tty_draw_pane_term (ext : Ext) (t : Tty) (wp : Pane) (py ox oy : Nat) :
    (tty_draw_pane ext t wp py ox oy).1.term = t.term := by
  simp [tty_draw_pane]

theorem eraseFree_draw_pane (ext : Ext) (t : Tty) (wp : Pane) (py ox oy : Nat)
    (hb : tty_fake_bce t (some wp) = true) :
    eraseFree (tty_draw_pane ext t wp py ox oy).2 = true := by
  unfold tty_draw_pane
  exact eraseFree_draw_line _ _ _ _ _ _ _ hb

attribute [irreducible] tty_draw_pane

@[simp]
theorem tty_draw_pane_rows_term (ext : Ext) (wp : Pane) (ox oy : Nat) :
    ∀ (rows : List Nat) (t : Tty), (tty_draw_pane_rows ext wp ox oy t rows).1.term = t.term := by
  intro rows
  induction rows with
  | nil => intro t; rfl
  | cons i rest ih =>
    intro t
    simp only [tty_draw_pane_rows]
    rw [ih, tty_draw_pane_term]

theorem eraseFree_draw_pane_rows (ext : Ext) (wp : Pane) (ox oy : Nat) :
    ∀ (rows : List Nat) (t : Tty), tty_fake_bce t (some wp) = true →
      eraseFree (tty_draw_pane_rows ext wp ox oy t rows).2 = true := by
  intro rows
  induction rows with
  | nil => intro t _; rfl
  | cons i rest ih =>
    intro t hb
    simp only [tty_draw_pane_rows]
    simp only [eraseFree_append, Bool.and_eq_true]
    refine ⟨eraseFree_draw_pane _ _ _ _ _ _ hb, ?_⟩
    exact ih _ ((tty_fake_bce_congr (some wp) (by simp)).trans hb)

attribute [irreducible] tty_draw_pane_rows

theorem eraseFree_redraw_region (ext : Ext) (t : Tty) (ctx : TtyCtx)
    (hb : tty_fake_bce t (some ctx.wp) = true) :
    eraseFree (tty_redraw_region ext t ctx).2 = true := by
  unfold tty_redraw_region
  split
  · rfl
  · split
    · exact eraseFree_draw_pane_rows _ _ _ _ _ _ hb
    · exact eraseFree_draw_pane_rows _ _ _ _ _ _ hb

attribute [irreducible] tty_redraw_region

@[simp]
theorem eraseFree_space_rows (ctx : TtyCtx) (sizex : Nat) :
    ∀ (rows : List Nat) (t : Tty), eraseFree (tty_space_rows ctx sizex t rows).2 = true := by
  intro rows
  induction rows with
  | nil => intro t; rfl
  | cons j rest ih =>
    intro t
    simp only [tty_space_rows]
    simp [ih]

attribute [irreducible] tty_space_rows tty_clear_el_rows tty_clear_sos_el_rows

/-! ### Command handlers under fake BCE -/

theorem eraseFree_cmd_insertcharacter (ext : Ext) (t : Tty) (ctx : TtyCtx)
    (hb : tty_fake_bce t (some ctx.wp) = true) :
    eraseFree (tty_cmd_insertcharacter ext t ctx).2 = true := by
  unfold tty_cmd_insertcharacter; dsimp only
  split
  · exact eraseFree_draw_pane _ _ _ _ _ _ hb
  · split
    next h => exact absurd ((tty_fake_bce_congr _ (by simp)).trans hb) h.1
    next _ =>
      simp only [eraseFree_append, Bool.and_eq_true]
      repeat' apply And.intro
      all_goals first
        | exact eraseFree_draw_pane _ _ _ _ _ _ ((tty_fake_bce_congr _ (by simp)).trans hb)
        | simp

theorem eraseFree_cmd_deletecharacter (ext : Ext) (t : Tty) (ctx : TtyCtx)
    (hb : tty_fake_bce t (some ctx.wp) = true) :
    eraseFree (tty_cmd_deletecharacter ext t ctx).2 = true := by
  unfold tty_cmd_deletecharacter; dsimp only
  split
  next _ => exact eraseFree_draw_pane _ _ _ _ _ _ hb
  next h => exact absurd (Or.inr (Or.inl hb)) h

theorem eraseFree_cmd_clearcharacter (ext : Ext) (t : Tty) (ctx : TtyCtx)
    (hb : tty_fake_bce t (some ctx.wp) = true) :
    eraseFree (tty_cmd_clearcharacter ext t ctx).2 = true := by
  unfold tty_cmd_clearcharacter; dsimp only
  split
  next h => exact absurd ((tty_fake_bce_congr _ (by simp)).trans hb) h.2
  next _ => simp

theorem eraseFree_cmd_insertline (ext : Ext) (t : Tty) (ctx : TtyCtx)
    (hb : tty_fake_bce t (some ctx.wp) = true) :
    eraseFree (tty_cmd_insertline ext t ctx).2 = true := by
  unfold tty_cmd_insertline; dsimp only
  split
  next _ => exact eraseFree_redraw_region _ _ _ hb
  next h => exact absurd (Or.inr (Or.inl hb)) h

theorem eraseFree_cmd_deleteline (ext : Ext) (t : Tty) (ctx : TtyCtx)
    (hb : tty_fake_bce t (some ctx.wp) = true) :
    eraseFree (tty_cmd_deleteline ext t ctx).2 = true := by
  unfold tty_cmd_deleteline; dsimp only
  split
  next _ => exact eraseFree_redraw_region _ _ _ hb
  next h => exact absurd (Or.inr (Or.inl hb)) h

theorem eraseFree_cmd_clearline (ext : Ext) (t : Tty) (ctx : TtyCtx)
    (hb : tty_fake_bce t (some ctx.wp) = true) :
    eraseFree (tty_cmd_clearline ext t ctx).2 = true := by
  unfold tty_cmd_clearline; dsimp only
  split
  next h => exact absurd ((tty_fake_bce_congr _ (by simp)).trans hb) h.2.1
  next _ => simp

theorem eraseFree_cmd_clearendofline (ext : Ext) (t : Tty) (ctx : TtyCtx)
    (hb : tty_fake_bce t (some ctx.wp) = true) :
    eraseFree (tty_cmd_clearendofline ext t ctx).2 = true := by
  unfold tty_cmd_clearendofline; dsimp only
  split
  next h => exact absurd ((tty_fake_bce_congr _ (by simp)).trans hb) h.2.2
  next _ => simp

theorem eraseFree_cmd_clearstartofline (ext : Ext) (t : Tty) (ctx : TtyCtx)
    (hb : tty_fake_bce t (some ctx.wp) = true) :
    eraseFree (tty_cmd_clearstartofline ext t ctx).2 = true := by
  unfold tty_cmd_clearstartofline; dsimp only
  split
  next h => exact absurd ((tty_fake_bce_congr _ (by simp)).trans hb) h.2.2
  next _ => simp

theorem eraseFree_cmd_linefeed (ext : Ext) (t : Tty) (ctx : TtyCtx)
    (hb : tty_fake_bce t (some ctx.wp) = true) :
    eraseFree (tty_cmd_linefeed ext t ctx).2 = true := by
  unfold tty_cmd_linefeed; dsimp only
  split
  · rfl
  · split
    next _ =>
      split
      · rfl
      · exact eraseFree_redraw_region _ _ _ hb
    next h2 =>
      split
      · rfl
      · exact absurd (Or.inr (Or.inl hb)) h2

theorem eraseFree_cmd_clearendofscreen (ext : Ext) (t : Tty) (ctx : TtyCtx)
    (hb : tty_fake_bce t (some ctx.wp) = true) :
    eraseFree (tty_cmd_clearendofscreen ext t ctx).2 = true := by
  unfold tty_cmd_clearendofscreen; dsimp only
  split
  next h => exact absurd ((tty_fake_bce_congr _ (by simp)).trans hb) h.2.2
  next _ => simp

theorem eraseFree_cmd_clearstartofscreen (ext : Ext) (t : Tty) (ctx : TtyCtx)
    (hb : tty_fake_bce t (some ctx.wp) = true) :
    eraseFree (tty_cmd_clearstartofscreen ext t ctx).2 = true := by
  unfold tty_cmd_clearstartofscreen; dsimp only
  split
  next h => exact absurd ((tty_fake_bce_congr _ (by simp)).trans hb) h.2.2
  next _ => simp

theorem eraseFree_cmd_clearscreen (ext : Ext) (t : Tty) (ctx : TtyCtx)
    (hb : tty_fake_bce t (some ctx.wp) = true) :
    eraseFree (tty_cmd_clearscreen ext t ctx).2 = true := by
  unfold tty_cmd_clearscreen; dsimp only
  split
  next h => exact absurd ((tty_fake_bce_congr _ (by simp)).trans hb) h.2.2
  next _ => simp

/-! ### Modular arithmetic of the cursor optimiser -/

/-- Unsigned 32-bit subtraction is plain subtraction when it cannot wrap. -/
theorem u32sub_small {a b : Nat} (ha : a < M32) (hb : b ≤ a) : u32sub a b = a - b := by
  unfold u32sub M32 at *
  omega

/-- The signed reinterpretation of an unsigned difference of small values is
the exact integer difference (the C idiom `int change = thisy - cy`). -/
theorem toInt32_u32sub {a b : Nat} (ha : a < 2 ^ 31) (hb : b < 2 ^ 31) :
    toInt32 (u32sub a b) = (a : Int) - b := by
  unfold toInt32 u32sub M32 at *
  split_ifs <;> omega

/-- The value the C computes for `cy - change` (u_int minus int) when
`change = d - c`: `2c - d`, wrapped when negative. -/
theorem u32sub_intToU32 {c d : Nat} (hc : c < 2 ^ 31) (hd : d < 2 ^ 31) :
    u32sub c (intToU32 ((d : Int) - c)) =
      if d ≤ 2 * c then 2 * c - d else M32 - (d - 2 * c) := by
  unfold u32sub intToU32 M32 at *
  split_ifs <;> omega

/-! ### The claims -/

/-- C1: the spec claims `tty_check_bg`'s 256-to-16 downgrade leaves every
field but `bg` unchanged; the code adds the aixterm offset to `fg` inside the
bg branch (`gc->fg += 90`, tty.c:1552).  On a cell with fg 7 and bg 256|9,
a 16-colour terminal without 256-colour mode folds bg to 1 but also rewrites
fg to 97, so the claimed frame property fails.  This theorem is the concrete
evidence of the divergence. -/
theorem claim_C1_evidence :
    (tty_check_bg extT ttyT gcC1).bg = 1 ∧ gcC1.fg = 7 ∧
    (tty_check_bg extT ttyT gcC1).fg = 97 := by
  with_unfolding_all decide

/-- C2: under fake BCE (effective default background not 8, no BCE flag),
every handler with a bulk-erase branch, and the tail fill of `tty_draw_line`,
emits no EL/EL1/ED/ECH/ICH/ICH1/DCH/DCH1/IL/IL1/DL/DL1 capability: the traces
are erase-free, the handlers space-paint or redraw instead. -/
theorem claim_C2 (ext : Ext) (t : Tty) (ctx : TtyCtx) (s : Screen) (sx py ox oy : Nat)
    (hb : tty_fake_bce t (some ctx.wp) = true) :
    eraseFree (tty_cmd_insertcharacter ext t ctx).2 = true ∧
    eraseFree (tty_cmd_deletecharacter ext t ctx).2 = true ∧
    eraseFree (tty_cmd_clearcharacter ext t ctx).2 = true ∧
    eraseFree (tty_cmd_insertline ext t ctx).2 = true ∧
    eraseFree (tty_cmd_deleteline ext t ctx).2 = true ∧
    eraseFree (tty_cmd_clearline ext t ctx).2 = true ∧
    eraseFree (tty_cmd_clearendofline ext t ctx).2 = true ∧
    eraseFree (tty_cmd_clearstartofline ext t ctx).2 = true ∧
    eraseFree (tty_cmd_linefeed ext t ctx).2 = true ∧
    eraseFree (tty_cmd_clearendofscreen ext t ctx).2 = true ∧
    eraseFree (tty_cmd_clearstartofscreen ext t ctx).2 = true ∧
    eraseFree (tty_cmd_clearscreen ext t ctx).2 = true ∧
    eraseFree (tty_draw_line_tail ext (some ctx.wp) s sx py ox oy t).2 = true :=
  ⟨eraseFree_cmd_insertcharacter _ _ _ hb, eraseFree_cmd_deletecharacter _ _ _ hb,
   eraseFree_cmd_clearcharacter _ _ _ hb, eraseFree_cmd_insertline _ _ _ hb,
   eraseFree_cmd_deleteline _ _ _ hb, eraseFree_cmd_clearline _ _ _ hb,
   eraseFree_cmd_clearendofline _ _ _ hb, eraseFree_cmd_clearstartofline _ _ _ hb,
   eraseFree_cmd_linefeed _ _ _ hb, eraseFree_cmd_clearendofscreen _ _ _ hb,
   eraseFree_cmd_clearstartofscreen _ _ _ hb, eraseFree_cmd_clearscreen _ _ _ hb,
   eraseFree_draw_line_tail _ _ _ _ _ _ _ _ hb⟩

/-- C2 witness: a concrete fake-BCE configuration (pane background 1, no BCE
flag), instantiating the insert-character conjunct. -/
theorem claim_C2_witness : eraseFree (tty_cmd_insertcharacter extT ttyT ctxT).2 = true :=
  (claim_C2 extT ttyT ctxT screenT 0 0 0 0 (by with_unfolding_all decide)).1

/-- Helper for C3: a same-column move that leaves the scroll region takes the
VPA-or-CUP branch of the same-column block (one-step CUU1/CUD1 and the
bounded CUU/CUD are all refuted by the crossing). -/
theorem tty_cursor_same_col_crossing (t : Tty) (cx0 cy0 : Nat)
    (hcy : t.cy < 2 ^ 31) (hcy0 : cy0 < 2 ^ 31) (hrlb : t.rlower < 2 ^ 31)
    (hru : t.rupper ≤ t.cy) (hrl : t.cy ≤ t.rlower)
    (hout : cy0 < t.rupper ∨ t.rlower < cy0) :
    tty_cursor_same_col t cx0 cy0 =
      if t.term.has TtyCode.VPA then tty_putcode1 t TtyCode.VPA cy0
      else tty_putcode2 t TtyCode.CUP cy0 cx0 := by
  have hti : toInt32 (u32sub t.cy cy0) = (t.cy : Int) - cy0 := toInt32_u32sub hcy hcy0
  have hvv : u32sub cy0 (intToU32 ((t.cy : Int) - cy0)) =
      if t.cy ≤ 2 * cy0 then 2 * cy0 - t.cy else M32 - (t.cy - 2 * cy0) :=
    u32sub_intToU32 hcy0 hcy
  unfold tty_cursor_same_col
  dsimp only
  rw [if_neg (show ¬(t.cy ≠ t.rupper ∧ cy0 = u32sub t.cy 1 ∧
      t.term.has TtyCode.CUU1 = true) by
    rintro ⟨h1, h2, -⟩
    unfold u32sub M32 at h2
    omega)]
  rw [if_neg (show ¬(t.cy ≠ t.rlower ∧ cy0 = (t.cy + 1) % M32 ∧
      t.term.has TtyCode.CUD1 = true) by
    rintro ⟨h1, h2, -⟩
    unfold M32 at h2
    omega)]
  rw [hti, hvv]
  rw [if_pos (show ((t.cy : Int) - cy0).natAbs > cy0 ∨
      ((t.cy : Int) - cy0 < 0 ∧
        (if t.cy ≤ 2 * cy0 then 2 * cy0 - t.cy else M32 - (t.cy - 2 * cy0)) > t.rlower) ∨
      (0 < (t.cy : Int) - cy0 ∧
        (if t.cy ≤ 2 * cy0 then 2 * cy0 - t.cy else M32 - (t.cy - 2 * cy0)) < t.rupper) by
    unfold M32
    split_ifs <;> omega)]

/-- C3 (amended): for a same-column cursor move (target column equal to the
shadow column, no pending wrap) from a row inside the scroll region to a row
outside it, with all coordinates in the int range and the HOME shortcut not
applicable, the emitted sequence is exactly VPA (when the terminal has VPA)
or absolute CUP — never CUU1/CUD1/CUU/CUD.  The original claim admitted the
HOME case, refuted by `claim_C3_counterexample`. -/
theorem claim_C3 (t : Tty) (cx0 cy0 : Nat)
    (hcx : cx0 = t.cx) (hxlt : t.cx < t.sx) (hsx : t.sx < M32)
    (hcy : t.cy < 2 ^ 31) (hcy0 : cy0 < 2 ^ 31) (hrlb : t.rlower < 2 ^ 31)
    (hru : t.rupper ≤ t.cy) (hrl : t.cy ≤ t.rlower)
    (hout : cy0 < t.rupper ∨ t.rlower < cy0)
    (hhome : ¬(cx0 = 0 ∧ cy0 = 0 ∧ t.term.has TtyCode.HOME = true)) :
    (tty_cursor t cx0 cy0).2 =
      if t.term.has TtyCode.VPA then [Emission.cap1 TtyCode.VPA cy0]
      else [Emission.cap2 TtyCode.CUP cy0 cx0] := by
  have hM : (2 : Nat) ^ 31 < M32 := by unfold M32; norm_num
  have hsx1 : u32sub t.sx 1 = t.sx - 1 := u32sub_small hsx (by omega)
  unfold tty_cursor
  dsimp only
  rw [hsx1]
  rw [if_neg (show ¬cx0 > t.sx - 1 by omega)]
  rw [if_neg (show ¬(cx0 = t.cx ∧ cy0 = t.cy) by rintro ⟨-, h2⟩; omega)]
  dsimp only
  unfold tty_cursor_emit
  dsimp only
  rw [hsx1]
  rw [if_neg (show ¬t.cx > t.sx - 1 by omega)]
  rw [if_neg hhome]
  rw [if_neg (show ¬(cx0 = 0 ∧ cy0 = (t.cy + 1) % M32 ∧ t.cy ≠ t.rlower) by
    rintro ⟨-, h2, h3⟩
    unfold M32 at h2
    omega)]
  rw [if_neg (show ¬cy0 = t.cy by omega)]
  rw [if_pos hcx]
  rw [tty_cursor_same_col_crossing t cx0 cy0 hcy hcy0 hrlb hru hrl hout]
  split <;> simp [tty_putcode1, tty_putcode2]

/-- C3 counterexample: from shadow (0,5) inside region [3,7] to (0,0) —
same column, crossing out of the region — a terminal with HOME (and VPA)
gets HOME, not the VPA the claim promises. -/
theorem claim_C3_counterexample :
    (0 = ttyC3.cx ∧ ttyC3.rupper ≤ ttyC3.cy ∧ ttyC3.cy ≤ ttyC3.rlower ∧
     0 < ttyC3.rupper ∧ ttyC3.term.has TtyCode.VPA = true) ∧
    (tty_cursor ttyC3 0 0).2 ≠ [Emission.cap1 TtyCode.VPA 0] := by
  with_unfolding_all decide

/-- C3 witness: the amended theorem at the same state, moving to row 9 below
region bottom 7: VPA is present so the output is exactly `VPA 9`. -/
theorem claim_C3_witness :
    (tty_cursor ttyC3 0 9).2 =
      if ttyC3.term.has TtyCode.VPA then [Emission.cap1 TtyCode.VPA 9]
      else [Emission.cap2 TtyCode.CUP 9 0] :=
  claim_C3 ttyC3 0 9 (by with_unfolding_all decide) (by with_unfolding_all decide)
    (by with_unfolding_all decide) (by with_unfolding_all decide)
    (by with_unfolding_all decide) (by with_unfolding_all decide)
    (by with_unfolding_all decide) (by with_unfolding_all decide)
    (by with_unfolding_all decide) (by with_unfolding_all decide)

/-- C4 (amended): the cursor-bound invariant that actually holds.  After
`tty_cursor` the shadow column is strictly below `sx` (the clamp) and the
shadow row is the requested row; `tty_putc` preserves `cx ≤ sx` (the column
may legitimately REACH `sx` — the deferred-wrap state — refuting the claimed
strict bound, see `claim_C4_counterexample`) and preserves `cy < sy` when the
scroll region bottom is the last screen row. -/
theorem claim_C4 (t : Tty) (cx0 cy0 ch : Nat) :
    (0 < t.sx → t.sx < M32 → (tty_cursor t cx0 cy0).1.cx < t.sx) ∧
    (tty_cursor t cx0 cy0).1.cy = cy0 ∧
    (2 ≤ t.sx → t.sx < M32 → t.cx ≤ t.sx → (tty_putc t ch).1.cx ≤ t.sx) ∧
    (t.rlower + 1 = t.sy → t.sy < M32 → t.cy < t.sy → (tty_putc t ch).1.cy < t.sy) := by
  refine ⟨fun h1 h2 => ?_, tty_cursor_cy t cx0 cy0, fun h1 h2 h3 => ?_, fun h1 h2 h3 => ?_⟩
  · rw [tty_cursor_cx, u32sub_small h2 (show 1 ≤ t.sx by omega)]
    split <;> omega
  · unfold tty_putc
    dsimp only
    repeat' split
    all_goals (try dsimp only)
    all_goals (try unfold u32sub at *)
    all_goals (try unfold M32 at *)
    all_goals omega
  · unfold tty_putc
    dsimp only
    repeat' split
    all_goals (try dsimp only)
    all_goals (try unfold u32sub at *)
    all_goals (try unfold M32 at *)
    all_goals omega

/-- C4 counterexample: a started 80x24 terminal (no early-wrap) with the
cursor on the last column; printing one character moves the shadow column to
80 = sx, which is neither below sx nor the sentinel — the claimed strict
invariant fails on the deferred-wrap state. -/
theorem claim_C4_counterexample :
    ttyC4.flags &&& TTY_STARTED ≠ 0 ∧ ttyC4.cx < ttyC4.sx ∧ ttyC4.cx ≠ U32MAX ∧
    (tty_putc ttyC4 65).1.cx = ttyC4.sx ∧ (tty_putc ttyC4 65).1.cx ≠ U32MAX := by
  with_unfolding_all decide

/-- C4 witness: the amended bounds at a concrete state. -/
theorem claim_C4_witness :
    (tty_cursor ttyC4 100 3).1.cx < ttyC4.sx ∧ (tty_putc ttyC4 65).1.cx ≤ ttyC4.sx :=
  ⟨((claim_C4 ttyC4 100 3 65).1 (by with_unfolding_all decide) (by with_unfolding_all decide)),
   ((claim_C4 ttyC4 100 3 65).2.2.1 (by with_unfolding_all decide)
     (by with_unfolding_all decide) (by with_unfolding_all decide))⟩

/-- C5: `tty_cursor` is idempotent — repeating a move emits nothing and
leaves the shadow state unchanged, including when the target column is
clamped to `sx - 1`. -/
theorem claim_C5 (t : Tty) (cx0 cy0 : Nat) :
    tty_cursor (tty_cursor t cx0 cy0).1 cx0 cy0 = ((tty_cursor t cx0 cy0).1, []) := by
  apply tty_cursor_noop
  · rw [tty_cursor_sx, tty_cursor_cx]
  · rw [tty_cursor_cy]

/-- C5 witness: idempotence at a concrete state and target. -/
theorem claim_C5_witness :
    tty_cursor (tty_cursor ttyT 1 1).1 1 1 = ((tty_cursor ttyT 1 1).1, []) :=
  claim_C5 ttyT 1 1

/-- C6: `tty_cmd_linefeed` is a complete no-op — no bytes, no shadow-state
change — when the cursor row is not the region bottom, and likewise when the
native-scroll conditions hold but ctx.num signals a natural wrap on a
terminal that is not early-wrap. -/
theorem claim_C6 (ext : Ext) (t : Tty) (ctx : TtyCtx) :
    (ctx.ocy ≠ ctx.orlower → tty_cmd_linefeed ext t ctx = (t, [])) ∧
    (tty_pane_full_width t ctx = true → tty_fake_bce t (some ctx.wp) = false →
      t.term.has TtyCode.CSR = true → ctx.num ≠ 0 →
      t.term.flags &&& TERM_EARLYWRAP = 0 → tty_cmd_linefeed ext t ctx = (t, [])) := by
  constructor
  · intro h
    unfold tty_cmd_linefeed
    rw [if_pos h]
  · intro h1 h2 h3 h4 h5
    unfold tty_cmd_linefeed
    split
    · rfl
    · rw [if_neg (by simp [h1, h2, h3]), if_pos ⟨h4, h5⟩]

/-- C6 witness: a context whose cursor row 0 differs from its region bottom 1. -/
theorem claim_C6_witness : tty_cmd_linefeed extT ttyT ctxT = (ttyT, []) :=
  (claim_C6 extT ttyT ctxT).1 (by decide)

/-- C7 (amended): with the log configured, `tty_puts` and `tty_putn` tee
every terminal byte verbatim to the log, and `tty_raw` writes nothing to the
log; `tty_putc` however logs the ORIGINAL byte, while the terminal receives
the ACS translation — the two streams agree only when no translation applies
(see `claim_C7_counterexample`). -/
theorem claim_C7 (t : Tty) (s buf : List Nat) (w ch : Nat) (hl : t.log_on = true) :
    traceLogBytes t (tty_puts t s).2 = traceTermBytes t.term (tty_puts t s).2 ∧
    traceLogBytes t (tty_putn t buf w).2 = traceTermBytes t.term (tty_putn t buf w).2 ∧
    traceLogBytes t (tty_putc t ch).2 = [ch] ∧
    (tty_raw s).2 = [] ∧
    (t.cell.attr &&& GRID_ATTR_CHARSET = 0 →
      traceLogBytes t (tty_putc t ch).2 = traceTermBytes t.term (tty_putc t ch).2) := by
  refine ⟨?_, ?_, ?_, rfl, ?_⟩
  · unfold tty_puts
    split <;> simp [traceLogBytes, traceTermBytes, emissionLogBytes, emissionTermBytes, hl]
  · simp [tty_putn, traceLogBytes, traceTermBytes, emissionLogBytes, emissionTermBytes, hl]
  · simp [tty_putc, traceLogBytes, emissionLogBytes, hl]
  · intro ha
    unfold tty_putc
    rw [if_neg (by simp [ha])]
    simp [traceLogBytes, traceTermBytes, emissionLogBytes, emissionTermBytes, hl]

/-- C7 counterexample: with the ACS charset attribute active and an ACS map
entry q→l, `tty_putc 'q'` sends `l` to the terminal but logs `q`: the log is
not a verbatim copy of the emitted bytes. -/
theorem claim_C7_counterexample :
    ttyC7.log_on = true ∧
    traceLogBytes ttyC7 (tty_putc ttyC7 113).2 ≠
      traceTermBytes ttyC7.term (tty_putc ttyC7 113).2 := by
  with_unfolding_all decide

/-- C7 witness: the putc log stream at a concrete state. -/
theorem claim_C7_witness : traceLogBytes ttyT (tty_putc ttyT 65).2 = [65] :=
  (claim_C7 ttyT [] [] 0 65 rfl).2.2.1

/-- C8: for a cell with default fg and bg, the resolver substitutes, for each
plane independently: the pane's `colgc` colour if not default; else the
active-pane style colour when the pane is active and that colour is not
default; else the window-style colour. -/
theorem claim_C8 (wp : Pane) (gc : GridCell) (hfg : gc.fg = 8) (hbg : gc.bg = 8) :
    ((wp.colgc.fg ≠ 8 → (tty_default_colours gc wp).fg = wp.colgc.fg) ∧
     (wp.colgc.fg = 8 → wp.isActive = true → (resolved_active_style wp.window).fg ≠ 8 →
       (tty_default_colours gc wp).fg = (resolved_active_style wp.window).fg) ∧
     (wp.colgc.fg = 8 → ¬(wp.isActive = true ∧ (resolved_active_style wp.window).fg ≠ 8) →
       (tty_default_colours gc wp).fg = (resolved_window_style wp.window).fg)) ∧
    ((wp.colgc.bg ≠ 8 → (tty_default_colours gc wp).bg = wp.colgc.bg) ∧
     (wp.colgc.bg = 8 → wp.isActive = true → (resolved_active_style wp.window).bg ≠ 8 →
       (tty_default_colours gc wp).bg = (resolved_active_style wp.window).bg) ∧
     (wp.colgc.bg = 8 → ¬(wp.isActive = true ∧ (resolved_active_style wp.window).bg ≠ 8) →
       (tty_default_colours gc wp).bg = (resolved_window_style wp.window).bg)) := by
  unfold tty_default_colours resolved_active_style resolved_window_style
  dsimp only
  rw [if_pos hfg]
  dsimp only
  rw [if_pos hbg]
  dsimp only
  refine ⟨⟨fun h => ?_, fun h hA hne => ?_, fun h hn => ?_⟩,
          ⟨fun h => ?_, fun h hA hne => ?_, fun h hn => ?_⟩⟩
  · rw [if_pos h]
  · rw [if_neg (by simp [h]), if_pos ⟨hA, hne⟩]
  · rw [if_neg (by simp [h]), if_neg hn]
  · rw [if_pos h]
  · rw [if_neg (by simp [h]), if_pos ⟨hA, hne⟩]
  · rw [if_neg (by simp [h]), if_neg hn]

/-- C8 witness: the pane-colour case at a concrete pane (colgc fg 2). -/
theorem claim_C8_witness :
    (tty_default_colours grid_default_cell paneT).fg = paneT.colgc.fg :=
  (claim_C8 paneT grid_default_cell rfl rfl).1.1 (by decide)

/-- C9: `tty_init` fails exactly when the fd is not a terminal; failure
leaves the structure untouched; success zero-initialises the shadow state,
stores the fd and the client and stores the terminal name, defaulting to
"unknown" when absent or empty. -/
theorem claim_C9 (t : Tty) (c : Nat) (fd : Int) (b : Bool) (term : Option String) :
    ((tty_init t c fd b term).1 = -1 ↔ b = false) ∧
    (b = false → (tty_init t c fd b term).2 = t) ∧
    (b = true →
      (tty_init t c fd b term).2.fd = fd ∧ (tty_init t c fd b term).2.client = c ∧
      (tty_init t c fd b term).2.cx = 0 ∧ (tty_init t c fd b term).2.cy = 0 ∧
      (tty_init t c fd b term).2.rupper = 0 ∧ (tty_init t c fd b term).2.rlower = 0 ∧
      (tty_init t c fd b term).2.sx = 0 ∧ (tty_init t c fd b term).2.sy = 0 ∧
      (tty_init t c fd b term).2.mode = 0 ∧ (tty_init t c fd b term).2.flags = 0 ∧
      (tty_init t c fd b term).2.cell = zeroCell ∧
      ((term = none ∨ term = some "") → (tty_init t c fd b term).2.termname = "unknown") ∧
      (∀ s, term = some s → s ≠ "" → (tty_init t c fd b term).2.termname = s)) := by
  cases b
  · simp [tty_init]
  · cases term with
    | none => simp [tty_init, zeroTty, zeroCell]
    | some s =>
      by_cases hs : s = ""
      · subst hs; simp [tty_init, zeroTty, zeroCell]
      · simp [tty_init, zeroTty, zeroCell, hs]

/-- C9 witness: failure on a non-terminal fd leaves the state untouched. -/
theorem claim_C9_witness : (tty_init ttyT 3 5 false none).2 = ttyT :=
  (claim_C9 ttyT 3 5 false none).2.1 rfl

/-- C10: a single-byte control cell (byte below 0x20 or 0x7f) produces no
character-data output and leaves the shadow cursor where it was (only the
attribute state may change); a padding cell is skipped entirely. -/
theorem claim_C10 (ext : Ext) (t : Tty) (gc : GridCell) (wp : Option Pane) :
    (gc.data.size = 1 → (gc.data.data.headD 0 < 32 ∨ gc.data.data.headD 0 = 127) →
      dataFree (tty_cell ext t gc wp).2 = true ∧
      (tty_cell ext t gc wp).1.cx = t.cx ∧ (tty_cell ext t gc wp).1.cy = t.cy) ∧
    (gc.flags &&& GRID_FLAG_PADDING ≠ 0 → tty_cell ext t gc wp = (t, [])) := by
  constructor
  · intro h1 h2
    unfold tty_cell
    dsimp only
    split
    · exact ⟨rfl, rfl, rfl⟩
    · split
      · exact ⟨rfl, rfl, rfl⟩
      · exact ⟨dataFree_attributes _ _ _ _, tty_attributes_cx _ _ _ _,
          tty_attributes_cy _ _ _ _⟩
  · intro hp
    unfold tty_cell
    dsimp only
    split <;> rfl

/-- C10 witness: a BEL cell at a concrete state. -/
theorem claim_C10_witness :
    dataFree (tty_cell extT ttyT gcCtrl none).2 = true ∧
    (tty_cell extT ttyT gcCtrl none).1.cx = ttyT.cx ∧
    (tty_cell extT ttyT gcCtrl none).1.cy = ttyT.cy :=
  (claim_C10 extT ttyT gcCtrl none).1 rfl (by decide)

end TmuxTty
